import Mathlib


/-!
Shallow embedding of the bare-metal snake game core (`src/lib.rs`).

The program is a VGA snake game: a `SnakeGame` owns a grid of cells, one or
two snakes (each a head position, heading, length counter and a fixed-capacity
ring buffer of past head positions), a discrete status, per-player buffered
input, a tick counter and a scheduler countdown.

Modelling notes, all taken from the source:
* `MainGame = SnakeGame<BUFFER_WIDTH, GAME_HEIGHT>` with the VGA constants
  `BUFFER_WIDTH = 80`, `BUFFER_HEIGHT = 25`, so the board is 80 wide and
  23 high and `ARRAY_SIZE = 23 * 80 = 1840`.  We fix these dimensions.
* `usize` arithmetic never overflows in the modelled paths (`total_ticks` is
  explicitly wrapped by the source before reaching `usize::MAX`); indices into
  the ring buffer are wrapped by explicit comparisons against `ARRAY_SIZE`.
* The external pseudo-random generator (`rand::SmallRng`, an external crate,
  reseeded from `total_ticks` on every `new_food` call) is modelled as an
  abstract stream `rng : Nat → Nat → Nat`: `rng seed i` is the `i`-th `u32`
  drawn after seeding with `seed`; values are truncated mod 2^32 at use sites.
  The floating-point scaling in `new_food` is exactly representable in `f64`
  (numerators below 2^40), so it is translated to exact integer arithmetic:
  `((u as f64) / 2^32 * (k as f64) + 1.0) as usize = u * k / 2^32 + 1` for
  `k = HEIGHT-3` or `WIDTH-3`.
* The source's `while` loop in `new_food` is modelled with explicit fuel; when
  the fuel runs out (the source would spin forever on a full board) the grid
  is left unchanged.
* Rendering (`draw*`) writes only to the VGA buffer, never to game state, and
  is omitted.
-/

set_option linter.unreachableTactic false
set_option linter.unusedTactic false

namespace SnakeSim

/-- `BUFFER_WIDTH` from the VGA text buffer (80 columns). -/
def BUFFER_WIDTH : Nat := 80

/-- `BUFFER_HEIGHT` from the VGA text buffer (25 rows). -/
def BUFFER_HEIGHT : Nat := 25

/-- `GAME_HEIGHT = BUFFER_HEIGHT - 2`. -/
def GAME_HEIGHT : Nat := BUFFER_HEIGHT - 2

/-- `ARRAY_SIZE = GAME_HEIGHT * BUFFER_WIDTH`, the ring-buffer capacity. -/
def ARRAY_SIZE : Nat := GAME_HEIGHT * BUFFER_WIDTH

/-- Board width of the instantiated game (`MainGame` uses `BUFFER_WIDTH`). -/
def WIDTH : Nat := BUFFER_WIDTH

/-- Board height of the instantiated game (`MainGame` uses `GAME_HEIGHT`). -/
def HEIGHT : Nat := GAME_HEIGHT

/-- `UPDATE_FREQUENCY` from the source. -/
def UPDATE_FREQUENCY : Nat := 1

/-- `usize::MAX` on the 64-bit target. -/
def USIZE_MAX : Nat := 2 ^ 64 - 1

/-- The four headings (`enum Dir`). -/
inductive Dir where
  | N : Dir
  | S : Dir
  | E : Dir
  | W : Dir
deriving DecidableEq, Repr

/-- `Dir::reverse`. -/
def Dir.reverse : Dir → Dir
  | Dir.N => Dir.S
  | Dir.S => Dir.N
  | Dir.E => Dir.W
  | Dir.W => Dir.E

/-- `enum Cell`. -/
inductive Cell where
  | Empty : Cell
  | Wall : Cell
  | Food : Cell
  | Body : Cell
  | Body2 : Cell
deriving DecidableEq, Repr

/-- `struct Position` (signed 16-bit coordinates; modelled as `Int`). -/
structure Position where
  col : Int
  row : Int
deriving DecidableEq, Repr

/-- `Position::is_legal`. -/
def Position.is_legal (p : Position) : Bool :=
  decide (0 ≤ p.col ∧ p.col < (WIDTH : Int) ∧ 0 ≤ p.row ∧ p.row < (HEIGHT : Int))

/-- `Position::row_col` (`as usize` casts, which truncate negatives to 0
only for illegal positions, which the source never dereferences). -/
def Position.row_col (p : Position) : Nat × Nat :=
  (p.row.toNat, p.col.toNat)

/-- `Position::neighbor`. -/
def Position.neighbor (p : Position) (d : Dir) : Position :=
  match d with
  | Dir.N => { row := p.row - 1, col := p.col }
  | Dir.S => { row := p.row + 1, col := p.col }
  | Dir.E => { row := p.row, col := p.col + 1 }
  | Dir.W => { row := p.row, col := p.col - 1 }

/-- `struct Snake`.  The body array is modelled as a total function on
indices; only indices below `ARRAY_SIZE` are ever read or written. -/
structure Snake where
  pos : Position
  dir : Dir
  size : Nat
  body : Nat → Position
  insert_index : Nat
  remove_index : Nat

/-- `Snake::new` (the body array is filled with `Position { col: 0, row: 0 }`).
The source takes the icon character and converts it with `Dir::from`; call
sites only pass legal icons, so the direction is taken directly. -/
def Snake.new (pos : Position) (dir : Dir) : Snake :=
  { pos := pos, dir := dir, size := 0, body := fun _ => { col := 0, row := 0 },
    insert_index := 0, remove_index := 0 }

/-- `enum Status`. -/
inductive Status where
  | Normal : Status
  | Over : Status
  | Over1 : Status
  | Over2 : Status
  | Start : Status
deriving DecidableEq, Repr

/-- `struct SnakeGame` (the cell matrix is modelled as a total function
`row → col → Cell`; only indices inside the board are ever used). -/
structure SnakeGame where
  cells : Nat → Nat → Cell
  snake : Snake
  snake2 : Snake
  status : Status
  last_key : Option Dir
  last_key2 : Option Dir
  countdown : Nat
  total_ticks : Nat
  two_player : Bool

/-- `SnakeGame::cell`: `self.cells[p.row as usize][p.col as usize]`. -/
def cellAt (g : SnakeGame) (p : Position) : Cell :=
  g.cells p.row.toNat p.col.toNat

/-- Pointwise update of the cell matrix at `[r][c]`. -/
def setCell (cells : Nat → Nat → Cell) (r c : Nat) (v : Cell) : Nat → Nat → Cell :=
  fun r' c' => if r' = r ∧ c' = c then v else cells r' c'

/-- Pointwise update of a body array at one index. -/
def setBody (body : Nat → Position) (i : Nat) (p : Position) : Nat → Position :=
  fun j => if j = i then p else body j

/-- Lines 408–412 / 464–468: adopt the buffered direction unless it is the
reverse of the current heading (`apply_input` in the spec's vocabulary). -/
def effDir (lk : Option Dir) (d : Dir) : Dir :=
  match lk with
  | some k => if k ≠ d.reverse then k else d
  | none => d

/-- The collision test of lines 417 and 473. -/
def isObstacle (c : Cell) : Prop :=
  c = Cell.Body ∨ c = Cell.Body2 ∨ c = Cell.Wall

instance (c : Cell) : Decidable (isObstacle c) := by
  unfold isObstacle; infer_instance

/-- The exact value of `((u as f64) / 4294967296.0 * ((HEIGHT-3) as f64)
+ 1.0) as usize` for a `u32` value `u` (all intermediates are exactly
representable in `f64`). -/
def foodRow (u : Nat) : Nat :=
  (u % 2 ^ 32) * (HEIGHT - 3) / 2 ^ 32 + 1

/-- The exact value of the column computation in `new_food`, as `foodRow`. -/
def foodCol (u : Nat) : Nat :=
  (u % 2 ^ 32) * (WIDTH - 3) / 2 ^ 32 + 1

/-- The rejection loop of `new_food`: draw `(row, col)` candidates from the
seeded stream until one lands on an `Empty` cell.  `i` counts candidate
pairs already drawn; `fuel` bounds the search (the source has no bound and
would loop forever on a full board). -/
def findFoodCell (cells : Nat → Nat → Cell) (stream : Nat → Nat) :
    Nat → Nat → Option (Nat × Nat)
  | _, 0 => none
  | i, fuel + 1 =>
    let r := foodRow (stream (2 * i))
    let c := foodCol (stream (2 * i + 1))
    if cells r c = Cell.Empty then some (r, c)
    else findFoodCell cells stream (i + 1) fuel

/-- `SnakeGame::new_food`: reseed from `total_ticks`, search for an empty
interior cell, mark it `Food`. -/
def new_food (rng : Nat → Nat → Nat) (fuel : Nat) (g : SnakeGame) : SnakeGame :=
  match findFoodCell g.cells (rng g.total_ticks) 0 fuel with
  | some (r, c) => { g with cells := setCell g.cells r c Cell.Food }
  | none => g

/-- `SnakeGame::update_snake_body` (player 1): append `new_body` at the
insert cursor; when not growing, dequeue at the remove cursor and clear that
grid cell. -/
def update_snake_body (g : SnakeGame) (new_body : Position) (grow : Bool) : SnakeGame :=
  let s := g.snake
  let body1 := setBody s.body s.insert_index new_body
  let ii0 := s.insert_index + 1
  let ii := if ii0 = ARRAY_SIZE then 0 else ii0
  if grow then
    { g with snake := { s with body := body1, insert_index := ii } }
  else
    let cleared := body1 s.remove_index
    let ri0 := s.remove_index + 1
    let ri := if ri0 = ARRAY_SIZE then 0 else ri0
    { g with
      snake := { s with body := body1, insert_index := ii, remove_index := ri },
      cells := setCell g.cells cleared.row.toNat cleared.col.toNat Cell.Empty }

/-- `SnakeGame::move_to` (player 1): mark the vacated head cell `Body`, move
the head, and resolve food at the destination. -/
def move_to (rng : Nat → Nat → Nat) (fuel : Nat) (g : SnakeGame)
    (neighbor : Position) (dir : Dir) : SnakeGame :=
  let curr := g.snake.pos
  let g1 : SnakeGame :=
    { g with
      cells := setCell g.cells curr.row.toNat curr.col.toNat Cell.Body,
      snake := { g.snake with pos := neighbor, dir := dir } }
  match cellAt g1 neighbor with
  | Cell.Food =>
    let g2 : SnakeGame :=
      { g1 with
        cells := setCell g1.cells neighbor.row.toNat neighbor.col.toNat Cell.Empty,
        snake := { g1.snake with size := g1.snake.size + 1 } }
    update_snake_body (new_food rng fuel g2) curr true
  | _ => update_snake_body g1 curr false

/-- `SnakeGame::resolve_move` (player 1). -/
def resolve_move (rng : Nat → Nat → Nat) (fuel : Nat) (g : SnakeGame) : SnakeGame :=
  let g1 : SnakeGame := { g with snake := { g.snake with dir := effDir g.last_key g.snake.dir } }
  let dir := g1.snake.dir
  let nb := g1.snake.pos.neighbor dir
  if nb.is_legal = true then
    if isObstacle (cellAt g1 nb) then
      if g1.two_player then { g1 with status := Status.Over2 }
      else { g1 with status := Status.Over }
    else if g1.status = Status.Normal then move_to rng fuel g1 nb dir
    else g1
  else g1

/-- `SnakeGame::update_snake_body2` (player 2; source duplicates the code). -/
def update_snake_body2 (g : SnakeGame) (new_body : Position) (grow : Bool) : SnakeGame :=
  let s := g.snake2
  let body1 := setBody s.body s.insert_index new_body
  let ii0 := s.insert_index + 1
  let ii := if ii0 = ARRAY_SIZE then 0 else ii0
  if grow then
    { g with snake2 := { s with body := body1, insert_index := ii } }
  else
    let cleared := body1 s.remove_index
    let ri0 := s.remove_index + 1
    let ri := if ri0 = ARRAY_SIZE then 0 else ri0
    { g with
      snake2 := { s with body := body1, insert_index := ii, remove_index := ri },
      cells := setCell g.cells cleared.row.toNat cleared.col.toNat Cell.Empty }

/-- `SnakeGame::move_to2` (player 2; marks `Body2`). -/
def move_to2 (rng : Nat → Nat → Nat) (fuel : Nat) (g : SnakeGame)
    (neighbor : Position) (dir : Dir) : SnakeGame :=
  let curr := g.snake2.pos
  let g1 : SnakeGame :=
    { g with
      cells := setCell g.cells curr.row.toNat curr.col.toNat Cell.Body2,
      snake2 := { g.snake2 with pos := neighbor, dir := dir } }
  match cellAt g1 neighbor with
  | Cell.Food =>
    let g2 : SnakeGame :=
      { g1 with
        cells := setCell g1.cells neighbor.row.toNat neighbor.col.toNat Cell.Empty,
        snake2 := { g1.snake2 with size := g1.snake2.size + 1 } }
    update_snake_body2 (new_food rng fuel g2) curr true
  | _ => update_snake_body2 g1 curr false

/-- `SnakeGame::resolve_move2` (player 2; a collision always sets `Over1`). -/
def resolve_move2 (rng : Nat → Nat → Nat) (fuel : Nat) (g : SnakeGame) : SnakeGame :=
  let g1 : SnakeGame := { g with snake2 := { g.snake2 with dir := effDir g.last_key2 g.snake2.dir } }
  let dir := g1.snake2.dir
  let nb := g1.snake2.pos.neighbor dir
  if nb.is_legal = true then
    if isObstacle (cellAt g1 nb) then { g1 with status := Status.Over1 }
    else if g1.status = Status.Normal then move_to2 rng fuel g1 nb dir
    else g1
  else g1

/-- `SnakeGame::update`: resolve player 1, then player 2 in two-player mode,
then clear both buffered inputs. -/
def update (rng : Nat → Nat → Nat) (fuel : Nat) (g : SnakeGame) : SnakeGame :=
  let ga := resolve_move rng fuel g
  let gb := if ga.two_player then resolve_move2 rng fuel ga else ga
  { gb with last_key := none, last_key2 := none }

/-- `SnakeGame::tick` (the `draw` call only writes to the VGA buffer):
advance `total_ticks` with its explicit wrap, then run `countdown_complete`
and, when it fires, `update`. -/
def tick (rng : Nat → Nat → Nat) (fuel : Nat) (g : SnakeGame) : SnakeGame :=
  let t := if g.total_ticks + 1 = USIZE_MAX then 0 else g.total_ticks + 1
  let g1 : SnakeGame := { g with total_ticks := t }
  if g1.countdown = 0 then update rng fuel { g1 with countdown := UPDATE_FREQUENCY }
  else { g1 with countdown := g1.countdown - 1 }

/-! ### Basic lemmas about the embedding -/

/-- A trivial RNG stream (the collision / skip paths never consult it). -/
def rng0 : Nat → Nat → Nat := fun _ _ => 0

/-- A state whose snake faces the top board edge (illegal neighbor). -/
def gEdge : SnakeGame :=
  { cells := fun _ _ => Cell.Empty,
    snake := Snake.new { col := 3, row := 0 } Dir.N,
    snake2 := Snake.new { col := 5, row := 5 } Dir.S,
    status := Status.Normal, last_key := none, last_key2 := none,
    countdown := 1, total_ticks := 0, two_player := false }

/-- A freshly spawned single-player state: size-0 snake, coincident cursors,
empty destination. -/
def gFirst : SnakeGame :=
  { cells := fun _ _ => Cell.Empty,
    snake := Snake.new { col := 6, row := 3 } Dir.S,
    snake2 := Snake.new { col := 6, row := 18 } Dir.N,
    status := Status.Normal, last_key := none, last_key2 := none,
    countdown := 1, total_ticks := 0, two_player := false }

/-- A two-player state in which both snakes face the left wall column. -/
def gDouble : SnakeGame :=
  { cells := fun _ c => if c = 0 then Cell.Wall else Cell.Empty,
    snake := Snake.new { col := 1, row := 1 } Dir.W,
    snake2 := Snake.new { col := 1, row := 2 } Dir.W,
    status := Status.Normal, last_key := none, last_key2 := none,
    countdown := 1, total_ticks := 0, two_player := true }

/-- A single-player state with a buffered (non-reversing) direction for the
never-resolved player 2. -/
def gIgnored : SnakeGame :=
  { cells := fun _ _ => Cell.Empty,
    snake := Snake.new { col := 6, row := 3 } Dir.S,
    snake2 := Snake.new { col := 6, row := 18 } Dir.N,
    status := Status.Normal, last_key := none, last_key2 := some Dir.E,
    countdown := 1, total_ticks := 0, two_player := false }

/-- A two-player state in which player 2 is about to step onto the cell
player 1 vacates this very tick. -/
def gChase : SnakeGame :=
  { cells := fun r c => if r = 4 ∧ c = 6 then Cell.Body else Cell.Empty,
    snake := { pos := { col := 6, row := 5 }, dir := Dir.S, size := 1,
               body := fun _ => { col := 6, row := 4 },
               insert_index := 1, remove_index := 0 },
    snake2 := { pos := { col := 7, row := 5 }, dir := Dir.W, size := 0,
                body := fun _ => { col := 0, row := 0 },
                insert_index := 0, remove_index := 0 },
    status := Status.Normal, last_key := none, last_key2 := none,
    countdown := 1, total_ticks := 0, two_player := true }

/-- A single-player state whose snake faces the left wall column. -/
def gWall : SnakeGame :=
  { cells := fun _ c => if c = 0 then Cell.Wall else Cell.Empty,
    snake := Snake.new { col := 1, row := 1 } Dir.W,
    snake2 := Snake.new { col := 6, row := 18 } Dir.N,
    status := Status.Normal, last_key := none, last_key2 := none,
    countdown := 1, total_ticks := 0, two_player := false }

/-- The set of board cells currently holding `Food`. -/
def foodFS (cells : Nat → Nat → Cell) : Finset (Nat × Nat) :=
  (Finset.range HEIGHT ×ˢ Finset.range WIDTH).filter (fun rc => cells rc.1 rc.2 = Cell.Food)

/-- A single-player state one step from the only food cell. -/
def gEat : SnakeGame :=
  { cells := fun r c => if r = 6 ∧ c = 5 then Cell.Food else Cell.Empty,
    snake := { pos := { col := 5, row := 5 }, dir := Dir.S, size := 0,
               body := fun _ => { col := 0, row := 0 },
               insert_index := 0, remove_index := 0 },
    snake2 := Snake.new { col := 6, row := 18 } Dir.N,
    status := Status.Normal, last_key := none, last_key2 := none,
    countdown := 1, total_ticks := 0, two_player := false }

/-- The live entries of a snake's ring buffer: the `size` entries starting at
the remove cursor, wrapping modulo `ARRAY_SIZE` (oldest first). -/
def live (s : Snake) : List Position :=
  (List.range s.size).map (fun k => s.body ((s.remove_index + k) % ARRAY_SIZE))

/-- The invariant as the claim states it, for player 1: occupancy counted
modulo the capacity equals the length, and every grid cell tagged `Body`
matches exactly one live buffer entry. -/
def StatedInv (g : SnakeGame) : Prop :=
  (ARRAY_SIZE + g.snake.insert_index - g.snake.remove_index) % ARRAY_SIZE
      = g.snake.size ∧
  ∀ r < HEIGHT, ∀ c < WIDTH, g.cells r c = Cell.Body →
    (live g.snake).count { col := (c : Int), row := (r : Int) } = 1

/-- The strengthened (inductive) ring-buffer invariant for player 1: cursor
bounds, occupancy equals length, live entries pairwise distinct, each live
entry a legal `Body` cell, every `Body` cell a live entry, the head legal
and on an `Empty`/`Food` cell, and two fixed wall cells (used to bound the
length). -/
def Inv (g : SnakeGame) : Prop :=
  g.snake.insert_index < ARRAY_SIZE ∧
  g.snake.remove_index < ARRAY_SIZE ∧
  g.snake.size < ARRAY_SIZE ∧
  g.snake.insert_index = (g.snake.remove_index + g.snake.size) % ARRAY_SIZE ∧
  (live g.snake).Nodup ∧
  (∀ p ∈ live g.snake, p.is_legal = true ∧ cellAt g p = Cell.Body) ∧
  (∀ r < HEIGHT, ∀ c < WIDTH, g.cells r c = Cell.Body →
      ({ col := (c : Int), row := (r : Int) } : Position) ∈ live g.snake) ∧
  g.snake.pos.is_legal = true ∧
  (cellAt g g.snake.pos = Cell.Empty ∨ cellAt g g.snake.pos = Cell.Food) ∧
  g.cells 0 0 = Cell.Wall ∧
  g.cells 0 1 = Cell.Wall

/-- A single-player state satisfying the invariant as literally stated but
whose head position is also (spuriously) recorded in the buffer: one update
duplicates that entry while its cell is tagged `Body` only once. -/
def gBad : SnakeGame :=
  { cells := fun r c => if r = 4 ∧ c = 5 then Cell.Body else Cell.Empty,
    snake := { pos := { col := 5, row := 5 }, dir := Dir.S, size := 2,
               body := fun j => if j = 0 then { col := 5, row := 4 }
                                else { col := 5, row := 5 },
               insert_index := 2, remove_index := 0 },
    snake2 := Snake.new { col := 6, row := 18 } Dir.N,
    status := Status.Normal, last_key := none, last_key2 := none,
    countdown := 1, total_ticks := 0, two_player := false }

/-- A single-player state satisfying the strengthened invariant. -/
def gInv : SnakeGame :=
  { cells := fun r c => if r = 0 ∧ (c = 0 ∨ c = 1) then Cell.Wall else Cell.Empty,
    snake := Snake.new { col := 6, row := 3 } Dir.S,
    snake2 := Snake.new { col := 6, row := 18 } Dir.N,
    status := Status.Normal, last_key := none, last_key2 := none,
    countdown := 1, total_ticks := 0, two_player := false }

instance (g : SnakeGame) : Decidable (StatedInv g) := by
  unfold StatedInv; infer_instance

instance (g : SnakeGame) : Decidable (Inv g) := by
  unfold Inv; infer_instance

theorem setCell_same (cs : Nat → Nat → Cell) (r c : Nat) (v : Cell) :
    setCell cs r c v r c = v := by
  simp [setCell]

theorem setCell_other (cs : Nat → Nat → Cell) (r c : Nat) (v : Cell) (r' c' : Nat)
    (h : ¬(r' = r ∧ c' = c)) : setCell cs r c v r' c' = cs r' c' := by
  simp only [setCell, if_neg h]

theorem setCell_collapse (cs : Nat → Nat → Cell) (r c : Nat) (v w : Cell) :
    setCell (setCell cs r c v) r c w = setCell cs r c w := by
  funext r' c'
  by_cases h : r' = r ∧ c' = c
  · simp [setCell, h]
  · simp only [setCell, if_neg h]

/-- Legal positions with equal truncated coordinates are equal. -/
theorem legal_coords_inj {p q : Position} (hp : p.is_legal = true) (hq : q.is_legal = true)
    (h1 : p.row.toNat = q.row.toNat) (h2 : p.col.toNat = q.col.toNat) : p = q := by
  simp only [Position.is_legal, decide_eq_true_eq] at hp hq
  cases p; cases q
  simp only [Position.mk.injEq]
  simp only at hp hq h1 h2
  omega

/-- Distinct legal positions index distinct grid cells. -/
theorem legal_coords_ne {p q : Position} (hp : p.is_legal = true) (hq : q.is_legal = true)
    (h : p ≠ q) : ¬(p.row.toNat = q.row.toNat ∧ p.col.toNat = q.col.toNat) := by
  intro hc
  exact h (legal_coords_inj hp hq hc.1 hc.2)

theorem neighbor_ne (p : Position) (d : Dir) : p.neighbor d ≠ p := by
  cases p; cases d <;> simp [Position.neighbor] <;> try omega

/-- Characterization of `resolve_move` when the move happens (legal
destination, no obstacle, phase `Normal`). -/
theorem resolve_move_moves (rng : Nat → Nat → Nat) (fuel : Nat) (g : SnakeGame)
    (hleg : (g.snake.pos.neighbor (effDir g.last_key g.snake.dir)).is_legal = true)
    (hobs : ¬ isObstacle (cellAt g (g.snake.pos.neighbor (effDir g.last_key g.snake.dir))))
    (hst : g.status = Status.Normal) :
    resolve_move rng fuel g =
      move_to rng fuel { g with snake := { g.snake with dir := effDir g.last_key g.snake.dir } }
        (g.snake.pos.neighbor (effDir g.last_key g.snake.dir))
        (effDir g.last_key g.snake.dir) := by
  simp only [resolve_move, cellAt] at *
  simp only [hleg, if_true, hst]
  rw [if_neg hobs]

/-- Characterization of `resolve_move` when the destination is a legal
obstacle cell: only the status changes. -/
theorem resolve_move_collides (rng : Nat → Nat → Nat) (fuel : Nat) (g : SnakeGame)
    (hleg : (g.snake.pos.neighbor (effDir g.last_key g.snake.dir)).is_legal = true)
    (hobs : isObstacle (cellAt g (g.snake.pos.neighbor (effDir g.last_key g.snake.dir)))) :
    resolve_move rng fuel g =
      { g with snake := { g.snake with dir := effDir g.last_key g.snake.dir },
               status := if g.two_player then Status.Over2 else Status.Over } := by
  simp only [resolve_move, cellAt] at *
  simp only [hleg, if_true]
  rw [if_pos hobs]
  by_cases h2 : g.two_player <;> simp [h2]

/-- Characterization of `resolve_move` when the destination is illegal:
only the heading input is consumed. -/
theorem resolve_move_skips (rng : Nat → Nat → Nat) (fuel : Nat) (g : SnakeGame)
    (hleg : ¬ (g.snake.pos.neighbor (effDir g.last_key g.snake.dir)).is_legal = true) :
    resolve_move rng fuel g =
      { g with snake := { g.snake with dir := effDir g.last_key g.snake.dir } } := by
  simp only [resolve_move]
  rw [if_neg hleg]

/-- Characterization of `resolve_move` when the destination is legal, not an
obstacle, and the phase is not `Normal`: only the heading input is consumed. -/
theorem resolve_move_blocked (rng : Nat → Nat → Nat) (fuel : Nat) (g : SnakeGame)
    (hleg : (g.snake.pos.neighbor (effDir g.last_key g.snake.dir)).is_legal = true)
    (hobs : ¬ isObstacle (cellAt g (g.snake.pos.neighbor (effDir g.last_key g.snake.dir))))
    (hst : g.status ≠ Status.Normal) :
    resolve_move rng fuel g =
      { g with snake := { g.snake with dir := effDir g.last_key g.snake.dir } } := by
  simp only [resolve_move, cellAt] at *
  simp only [hleg, if_true]
  rw [if_neg hobs, if_neg hst]

/-- Characterization of `resolve_move2` when the destination is a legal
obstacle cell: only the status changes (always to `Over1`). -/
theorem resolve_move2_collides (rng : Nat → Nat → Nat) (fuel : Nat) (g : SnakeGame)
    (hleg : (g.snake2.pos.neighbor (effDir g.last_key2 g.snake2.dir)).is_legal = true)
    (hobs : isObstacle (cellAt g (g.snake2.pos.neighbor (effDir g.last_key2 g.snake2.dir)))) :
    resolve_move2 rng fuel g =
      { g with snake2 := { g.snake2 with dir := effDir g.last_key2 g.snake2.dir },
               status := Status.Over1 } := by
  simp only [resolve_move2, cellAt] at *
  simp only [hleg, if_true]
  rw [if_pos hobs]

/-- Characterization of `resolve_move2` when the destination is illegal. -/
theorem resolve_move2_skips (rng : Nat → Nat → Nat) (fuel : Nat) (g : SnakeGame)
    (hleg : ¬ (g.snake2.pos.neighbor (effDir g.last_key2 g.snake2.dir)).is_legal = true) :
    resolve_move2 rng fuel g =
      { g with snake2 := { g.snake2 with dir := effDir g.last_key2 g.snake2.dir } } := by
  simp only [resolve_move2]
  rw [if_neg hleg]

/-- Characterization of `resolve_move2` when the destination is legal, not an
obstacle, and the phase is not `Normal`. -/
theorem resolve_move2_blocked (rng : Nat → Nat → Nat) (fuel : Nat) (g : SnakeGame)
    (hleg : (g.snake2.pos.neighbor (effDir g.last_key2 g.snake2.dir)).is_legal = true)
    (hobs : ¬ isObstacle (cellAt g (g.snake2.pos.neighbor (effDir g.last_key2 g.snake2.dir))))
    (hst : g.status ≠ Status.Normal) :
    resolve_move2 rng fuel g =
      { g with snake2 := { g.snake2 with dir := effDir g.last_key2 g.snake2.dir } } := by
  simp only [resolve_move2, cellAt] at *
  simp only [hleg, if_true]
  rw [if_neg hobs, if_neg hst]

/-- Characterization of `resolve_move2` when the move happens. -/
theorem resolve_move2_moves (rng : Nat → Nat → Nat) (fuel : Nat) (g : SnakeGame)
    (hleg : (g.snake2.pos.neighbor (effDir g.last_key2 g.snake2.dir)).is_legal = true)
    (hobs : ¬ isObstacle (cellAt g (g.snake2.pos.neighbor (effDir g.last_key2 g.snake2.dir))))
    (hst : g.status = Status.Normal) :
    resolve_move2 rng fuel g =
      move_to2 rng fuel { g with snake2 := { g.snake2 with dir := effDir g.last_key2 g.snake2.dir } }
        (g.snake2.pos.neighbor (effDir g.last_key2 g.snake2.dir))
        (effDir g.last_key2 g.snake2.dir) := by
  simp only [resolve_move2, cellAt] at *
  simp only [hleg, if_true, hst]
  rw [if_neg hobs]

/-- `move_to` when the destination (read after the vacated head cell is
marked) does not hold food. -/
theorem move_to_nonfood (rng : Nat → Nat → Nat) (fuel : Nat) (g : SnakeGame)
    (nb : Position) (dir : Dir)
    (h : setCell g.cells g.snake.pos.row.toNat g.snake.pos.col.toNat Cell.Body
          nb.row.toNat nb.col.toNat ≠ Cell.Food) :
    move_to rng fuel g nb dir =
      update_snake_body
        { g with
          cells := setCell g.cells g.snake.pos.row.toNat g.snake.pos.col.toNat Cell.Body,
          snake := { g.snake with pos := nb, dir := dir } }
        g.snake.pos false := by
  simp only [move_to, cellAt]

/-- `move_to` when the destination holds food. -/
theorem move_to_food (rng : Nat → Nat → Nat) (fuel : Nat) (g : SnakeGame)
    (nb : Position) (dir : Dir)
    (h : setCell g.cells g.snake.pos.row.toNat g.snake.pos.col.toNat Cell.Body
          nb.row.toNat nb.col.toNat = Cell.Food) :
    move_to rng fuel g nb dir =
      update_snake_body
        (new_food rng fuel
          { g with
            cells := setCell
              (setCell g.cells g.snake.pos.row.toNat g.snake.pos.col.toNat Cell.Body)
              nb.row.toNat nb.col.toNat Cell.Empty,
            snake := { g.snake with pos := nb, dir := dir, size := g.snake.size + 1 } })
        g.snake.pos true := by
  simp only [move_to, cellAt, h]

/-- `update_snake_body` with `grow = false`, written out. -/
theorem update_snake_body_nongrow (g : SnakeGame) (p : Position) :
    update_snake_body g p false =
      { g with
        snake := { g.snake with
          body := setBody g.snake.body g.snake.insert_index p,
          insert_index := if g.snake.insert_index + 1 = ARRAY_SIZE then 0
                          else g.snake.insert_index + 1,
          remove_index := if g.snake.remove_index + 1 = ARRAY_SIZE then 0
                          else g.snake.remove_index + 1 },
        cells := setCell g.cells
          (setBody g.snake.body g.snake.insert_index p g.snake.remove_index).row.toNat
          (setBody g.snake.body g.snake.insert_index p g.snake.remove_index).col.toNat
          Cell.Empty } := by
  rfl

/-- `update_snake_body` with `grow = true`, written out. -/
theorem update_snake_body_grow (g : SnakeGame) (p : Position) :
    update_snake_body g p true =
      { g with
        snake := { g.snake with
          body := setBody g.snake.body g.snake.insert_index p,
          insert_index := if g.snake.insert_index + 1 = ARRAY_SIZE then 0
                          else g.snake.insert_index + 1 } } := by
  rfl

/-! ### Frame lemmas: which fields each operation can touch -/

@[simp] theorem effDir_none (d : Dir) : effDir none d = d := rfl

theorem effDir_reverse (d : Dir) : effDir (some d.reverse) d = d := by
  simp [effDir]

theorem effDir_other (k d : Dir) (h : k ≠ d.reverse) : effDir (some k) d = k := by
  simp [effDir, h]

@[simp] theorem new_food_snake (rng : Nat → Nat → Nat) (fuel : Nat) (g : SnakeGame) :
    (new_food rng fuel g).snake = g.snake := by
  unfold new_food
  cases hf : findFoodCell g.cells (rng g.total_ticks) 0 fuel
  · rfl
  · next rc => cases rc; rfl

@[simp] theorem new_food_snake2 (rng : Nat → Nat → Nat) (fuel : Nat) (g : SnakeGame) :
    (new_food rng fuel g).snake2 = g.snake2 := by
  unfold new_food
  cases hf : findFoodCell g.cells (rng g.total_ticks) 0 fuel
  · rfl
  · next rc => cases rc; rfl

@[simp] theorem new_food_status (rng : Nat → Nat → Nat) (fuel : Nat) (g : SnakeGame) :
    (new_food rng fuel g).status = g.status := by
  unfold new_food
  cases hf : findFoodCell g.cells (rng g.total_ticks) 0 fuel
  · rfl
  · next rc => cases rc; rfl

@[simp] theorem new_food_last_key (rng : Nat → Nat → Nat) (fuel : Nat) (g : SnakeGame) :
    (new_food rng fuel g).last_key = g.last_key := by
  unfold new_food
  cases hf : findFoodCell g.cells (rng g.total_ticks) 0 fuel
  · rfl
  · next rc => cases rc; rfl

@[simp] theorem new_food_last_key2 (rng : Nat → Nat → Nat) (fuel : Nat) (g : SnakeGame) :
    (new_food rng fuel g).last_key2 = g.last_key2 := by
  unfold new_food
  cases hf : findFoodCell g.cells (rng g.total_ticks) 0 fuel
  · rfl
  · next rc => cases rc; rfl

@[simp] theorem new_food_two_player (rng : Nat → Nat → Nat) (fuel : Nat) (g : SnakeGame) :
    (new_food rng fuel g).two_player = g.two_player := by
  unfold new_food
  cases hf : findFoodCell g.cells (rng g.total_ticks) 0 fuel
  · rfl
  · next rc => cases rc; rfl

@[simp] theorem usb_snake_pos (g : SnakeGame) (p : Position) (gr : Bool) :
    (update_snake_body g p gr).snake.pos = g.snake.pos := by
  unfold update_snake_body; cases gr <;> rfl

@[simp] theorem usb_snake_dir (g : SnakeGame) (p : Position) (gr : Bool) :
    (update_snake_body g p gr).snake.dir = g.snake.dir := by
  unfold update_snake_body; cases gr <;> rfl

@[simp] theorem usb_snake_size (g : SnakeGame) (p : Position) (gr : Bool) :
    (update_snake_body g p gr).snake.size = g.snake.size := by
  unfold update_snake_body; cases gr <;> rfl

@[simp] theorem usb_snake2 (g : SnakeGame) (p : Position) (gr : Bool) :
    (update_snake_body g p gr).snake2 = g.snake2 := by
  unfold update_snake_body; cases gr <;> rfl

@[simp] theorem usb_status (g : SnakeGame) (p : Position) (gr : Bool) :
    (update_snake_body g p gr).status = g.status := by
  unfold update_snake_body; cases gr <;> rfl

@[simp] theorem usb_last_key (g : SnakeGame) (p : Position) (gr : Bool) :
    (update_snake_body g p gr).last_key = g.last_key := by
  unfold update_snake_body; cases gr <;> rfl

@[simp] theorem usb_last_key2 (g : SnakeGame) (p : Position) (gr : Bool) :
    (update_snake_body g p gr).last_key2 = g.last_key2 := by
  unfold update_snake_body; cases gr <;> rfl

@[simp] theorem usb_two_player (g : SnakeGame) (p : Position) (gr : Bool) :
    (update_snake_body g p gr).two_player = g.two_player := by
  unfold update_snake_body; cases gr <;> rfl

@[simp] theorem usb2_snake (g : SnakeGame) (p : Position) (gr : Bool) :
    (update_snake_body2 g p gr).snake = g.snake := by
  unfold update_snake_body2; cases gr <;> rfl

@[simp] theorem usb2_snake2_pos (g : SnakeGame) (p : Position) (gr : Bool) :
    (update_snake_body2 g p gr).snake2.pos = g.snake2.pos := by
  unfold update_snake_body2; cases gr <;> rfl

@[simp] theorem usb2_snake2_dir (g : SnakeGame) (p : Position) (gr : Bool) :
    (update_snake_body2 g p gr).snake2.dir = g.snake2.dir := by
  unfold update_snake_body2; cases gr <;> rfl

@[simp] theorem usb2_status (g : SnakeGame) (p : Position) (gr : Bool) :
    (update_snake_body2 g p gr).status = g.status := by
  unfold update_snake_body2; cases gr <;> rfl

@[simp] theorem usb2_last_key (g : SnakeGame) (p : Position) (gr : Bool) :
    (update_snake_body2 g p gr).last_key = g.last_key := by
  unfold update_snake_body2; cases gr <;> rfl

@[simp] theorem usb2_last_key2 (g : SnakeGame) (p : Position) (gr : Bool) :
    (update_snake_body2 g p gr).last_key2 = g.last_key2 := by
  unfold update_snake_body2; cases gr <;> rfl

@[simp] theorem usb2_two_player (g : SnakeGame) (p : Position) (gr : Bool) :
    (update_snake_body2 g p gr).two_player = g.two_player := by
  unfold update_snake_body2; cases gr <;> rfl

@[simp] theorem move_to_snake_dir (rng : Nat → Nat → Nat) (fuel : Nat) (g : SnakeGame)
    (nb : Position) (d : Dir) : (move_to rng fuel g nb d).snake.dir = d := by
  simp only [move_to]; split <;> simp

@[simp] theorem move_to_snake_pos (rng : Nat → Nat → Nat) (fuel : Nat) (g : SnakeGame)
    (nb : Position) (d : Dir) : (move_to rng fuel g nb d).snake.pos = nb := by
  simp only [move_to]; split <;> simp

@[simp] theorem move_to_snake2 (rng : Nat → Nat → Nat) (fuel : Nat) (g : SnakeGame)
    (nb : Position) (d : Dir) : (move_to rng fuel g nb d).snake2 = g.snake2 := by
  simp only [move_to]; split <;> simp

@[simp] theorem move_to_status (rng : Nat → Nat → Nat) (fuel : Nat) (g : SnakeGame)
    (nb : Position) (d : Dir) : (move_to rng fuel g nb d).status = g.status := by
  simp only [move_to]; split <;> simp

@[simp] theorem move_to_last_key (rng : Nat → Nat → Nat) (fuel : Nat) (g : SnakeGame)
    (nb : Position) (d : Dir) : (move_to rng fuel g nb d).last_key = g.last_key := by
  simp only [move_to]; split <;> simp

@[simp] theorem move_to_last_key2 (rng : Nat → Nat → Nat) (fuel : Nat) (g : SnakeGame)
    (nb : Position) (d : Dir) : (move_to rng fuel g nb d).last_key2 = g.last_key2 := by
  simp only [move_to]; split <;> simp

@[simp] theorem move_to_two_player (rng : Nat → Nat → Nat) (fuel : Nat) (g : SnakeGame)
    (nb : Position) (d : Dir) : (move_to rng fuel g nb d).two_player = g.two_player := by
  simp only [move_to]; split <;> simp

@[simp] theorem move_to2_snake (rng : Nat → Nat → Nat) (fuel : Nat) (g : SnakeGame)
    (nb : Position) (d : Dir) : (move_to2 rng fuel g nb d).snake = g.snake := by
  simp only [move_to2]; split <;> simp

@[simp] theorem move_to2_snake2_dir (rng : Nat → Nat → Nat) (fuel : Nat) (g : SnakeGame)
    (nb : Position) (d : Dir) : (move_to2 rng fuel g nb d).snake2.dir = d := by
  simp only [move_to2]; split <;> simp

@[simp] theorem move_to2_snake2_pos (rng : Nat → Nat → Nat) (fuel : Nat) (g : SnakeGame)
    (nb : Position) (d : Dir) : (move_to2 rng fuel g nb d).snake2.pos = nb := by
  simp only [move_to2]; split <;> simp

@[simp] theorem move_to2_status (rng : Nat → Nat → Nat) (fuel : Nat) (g : SnakeGame)
    (nb : Position) (d : Dir) : (move_to2 rng fuel g nb d).status = g.status := by
  simp only [move_to2]; split <;> simp

@[simp] theorem move_to2_last_key (rng : Nat → Nat → Nat) (fuel : Nat) (g : SnakeGame)
    (nb : Position) (d : Dir) : (move_to2 rng fuel g nb d).last_key = g.last_key := by
  simp only [move_to2]; split <;> simp

@[simp] theorem move_to2_last_key2 (rng : Nat → Nat → Nat) (fuel : Nat) (g : SnakeGame)
    (nb : Position) (d : Dir) : (move_to2 rng fuel g nb d).last_key2 = g.last_key2 := by
  simp only [move_to2]; split <;> simp

@[simp] theorem move_to2_two_player (rng : Nat → Nat → Nat) (fuel : Nat) (g : SnakeGame)
    (nb : Position) (d : Dir) : (move_to2 rng fuel g nb d).two_player = g.two_player := by
  simp only [move_to2]; split <;> simp

@[simp] theorem resolve_move_snake_dir (rng : Nat → Nat → Nat) (fuel : Nat) (g : SnakeGame) :
    (resolve_move rng fuel g).snake.dir = effDir g.last_key g.snake.dir := by
  simp only [resolve_move]
  split
  · split
    · split <;> rfl
    · split
      · simp
      · rfl
  · rfl

@[simp] theorem resolve_move_snake2 (rng : Nat → Nat → Nat) (fuel : Nat) (g : SnakeGame) :
    (resolve_move rng fuel g).snake2 = g.snake2 := by
  simp only [resolve_move]
  split
  · split
    · split <;> rfl
    · split
      · simp
      · rfl
  · rfl

@[simp] theorem resolve_move_last_key (rng : Nat → Nat → Nat) (fuel : Nat) (g : SnakeGame) :
    (resolve_move rng fuel g).last_key = g.last_key := by
  simp only [resolve_move]
  split
  · split
    · split <;> rfl
    · split
      · simp
      · rfl
  · rfl

@[simp] theorem resolve_move_last_key2 (rng : Nat → Nat → Nat) (fuel : Nat) (g : SnakeGame) :
    (resolve_move rng fuel g).last_key2 = g.last_key2 := by
  simp only [resolve_move]
  split
  · split
    · split <;> rfl
    · split
      · simp
      · rfl
  · rfl

@[simp] theorem resolve_move_two_player (rng : Nat → Nat → Nat) (fuel : Nat) (g : SnakeGame) :
    (resolve_move rng fuel g).two_player = g.two_player := by
  simp only [resolve_move]
  split
  · split
    · split <;> rfl
    · split
      · simp
      · rfl
  · rfl

@[simp] theorem resolve_move2_snake (rng : Nat → Nat → Nat) (fuel : Nat) (g : SnakeGame) :
    (resolve_move2 rng fuel g).snake = g.snake := by
  simp only [resolve_move2]
  split
  · split
    · rfl
    · split
      · simp
      · rfl
  · rfl

@[simp] theorem resolve_move2_snake2_dir (rng : Nat → Nat → Nat) (fuel : Nat) (g : SnakeGame) :
    (resolve_move2 rng fuel g).snake2.dir = effDir g.last_key2 g.snake2.dir := by
  simp only [resolve_move2]
  split
  · split
    · rfl
    · split
      · simp
      · rfl
  · rfl

@[simp] theorem resolve_move2_last_key (rng : Nat → Nat → Nat) (fuel : Nat) (g : SnakeGame) :
    (resolve_move2 rng fuel g).last_key = g.last_key := by
  simp only [resolve_move2]
  split
  · split
    · rfl
    · split
      · simp
      · rfl
  · rfl

@[simp] theorem resolve_move2_last_key2 (rng : Nat → Nat → Nat) (fuel : Nat) (g : SnakeGame) :
    (resolve_move2 rng fuel g).last_key2 = g.last_key2 := by
  simp only [resolve_move2]
  split
  · split
    · rfl
    · split
      · simp
      · rfl
  · rfl

@[simp] theorem resolve_move2_two_player (rng : Nat → Nat → Nat) (fuel : Nat) (g : SnakeGame) :
    (resolve_move2 rng fuel g).two_player = g.two_player := by
  simp only [resolve_move2]
  split
  · split
    · rfl
    · split
      · simp
      · rfl
  · rfl

/-! ### Concrete states used by witnesses and counterexamples -/

/-- C6: when the snake's destination in its post-input heading is illegal
(outside the board), resolving its move changes neither head position, nor
length, nor the grid, nor the phase: the move is silently skipped and no
game-over is raised by the board edge. -/
theorem C6_edge_is_silent_skip (rng : Nat → Nat → Nat) (fuel : Nat) (g : SnakeGame)
    (hleg : ¬ (g.snake.pos.neighbor (effDir g.last_key g.snake.dir)).is_legal = true) :
    (resolve_move rng fuel g).snake.pos = g.snake.pos ∧
    (resolve_move rng fuel g).snake.size = g.snake.size ∧
    (resolve_move rng fuel g).cells = g.cells ∧
    (resolve_move rng fuel g).status = g.status := by
  rw [resolve_move_skips rng fuel g hleg]
  exact ⟨rfl, rfl, rfl, rfl⟩

/-- Witness for C6 at a concrete state facing the top edge. -/
theorem C6_edge_is_silent_skip_witness :
    (¬ (gEdge.snake.pos.neighbor (effDir gEdge.last_key gEdge.snake.dir)).is_legal = true) ∧
    ((resolve_move rng0 0 gEdge).snake.pos = gEdge.snake.pos ∧
     (resolve_move rng0 0 gEdge).snake.size = gEdge.snake.size ∧
     (resolve_move rng0 0 gEdge).cells = gEdge.cells ∧
     (resolve_move rng0 0 gEdge).status = gEdge.status) :=
  ⟨by decide, C6_edge_is_silent_skip rng0 0 gEdge (by decide)⟩

/-- C9: a size-0 snake (coincident cursors) advancing without growing first
writes the previous head position at the insert cursor and then vacates that
same just-written slot, so the cell cleared in the grid is exactly the
previous head cell and the snake leaves no body trail behind its first
move. -/
theorem C9_size_zero_first_move (rng : Nat → Nat → Nat) (fuel : Nat) (g : SnakeGame)
    (hsz : g.snake.size = 0)
    (hidx : g.snake.insert_index = g.snake.remove_index)
    (hst : g.status = Status.Normal)
    (hhead : g.snake.pos.is_legal = true)
    (hleg : (g.snake.pos.neighbor (effDir g.last_key g.snake.dir)).is_legal = true)
    (hdest : cellAt g (g.snake.pos.neighbor (effDir g.last_key g.snake.dir)) = Cell.Empty) :
    (resolve_move rng fuel g).snake.pos
        = g.snake.pos.neighbor (effDir g.last_key g.snake.dir) ∧
    (resolve_move rng fuel g).snake.size = 0 ∧
    (resolve_move rng fuel g).snake.body g.snake.insert_index = g.snake.pos ∧
    (resolve_move rng fuel g).snake.insert_index
        = (resolve_move rng fuel g).snake.remove_index ∧
    (resolve_move rng fuel g).cells
        = setCell g.cells g.snake.pos.row.toNat g.snake.pos.col.toNat Cell.Empty ∧
    (resolve_move rng fuel g).status = g.status := by
  have hobs : ¬ isObstacle (cellAt g (g.snake.pos.neighbor (effDir g.last_key g.snake.dir))) := by
    rw [hdest]; rintro (h | h | h) <;> exact Cell.noConfusion h
  have hne := legal_coords_ne hleg hhead (neighbor_ne g.snake.pos (effDir g.last_key g.snake.dir))
  have hdest' : g.cells (g.snake.pos.neighbor (effDir g.last_key g.snake.dir)).row.toNat
      (g.snake.pos.neighbor (effDir g.last_key g.snake.dir)).col.toNat = Cell.Empty := hdest
  have hcell : setCell g.cells g.snake.pos.row.toNat g.snake.pos.col.toNat Cell.Body
      (g.snake.pos.neighbor (effDir g.last_key g.snake.dir)).row.toNat
      (g.snake.pos.neighbor (effDir g.last_key g.snake.dir)).col.toNat ≠ Cell.Food := by
    rw [setCell_other _ _ _ _ _ _ hne, hdest']
    rintro h; exact Cell.noConfusion h
  rw [resolve_move_moves rng fuel g hleg hobs hst]
  rw [move_to_nonfood rng fuel
      { g with snake := { g.snake with dir := effDir g.last_key g.snake.dir } }
      (g.snake.pos.neighbor (effDir g.last_key g.snake.dir))
      (effDir g.last_key g.snake.dir) hcell]
  rw [update_snake_body_nongrow]
  rw [hidx]
  simp [setBody, setCell_collapse, hsz, hst]

/-- Witness for C9 at a freshly spawned concrete state. -/
theorem C9_size_zero_first_move_witness :
    (gFirst.snake.size = 0 ∧ gFirst.snake.insert_index = gFirst.snake.remove_index ∧
     gFirst.status = Status.Normal ∧ gFirst.snake.pos.is_legal = true ∧
     (gFirst.snake.pos.neighbor (effDir gFirst.last_key gFirst.snake.dir)).is_legal = true ∧
     cellAt gFirst (gFirst.snake.pos.neighbor (effDir gFirst.last_key gFirst.snake.dir))
        = Cell.Empty) ∧
    ((resolve_move rng0 0 gFirst).snake.pos
        = gFirst.snake.pos.neighbor (effDir gFirst.last_key gFirst.snake.dir) ∧
     (resolve_move rng0 0 gFirst).snake.size = 0 ∧
     (resolve_move rng0 0 gFirst).snake.body gFirst.snake.insert_index = gFirst.snake.pos ∧
     (resolve_move rng0 0 gFirst).snake.insert_index
        = (resolve_move rng0 0 gFirst).snake.remove_index ∧
     (resolve_move rng0 0 gFirst).cells
        = setCell gFirst.cells gFirst.snake.pos.row.toNat gFirst.snake.pos.col.toNat
            Cell.Empty ∧
     (resolve_move rng0 0 gFirst).status = gFirst.status) :=
  ⟨⟨by decide, by decide, by decide, by decide, by decide, by decide⟩,
   C9_size_zero_first_move rng0 0 gFirst (by decide) (by decide) (by decide) (by decide)
     (by decide) (by decide)⟩

/-- In a non-`Normal` phase `resolve_move` moves nothing: at most the heading
(consumed input) and the status (a collision branch re-marks a terminal
phase) change. -/
theorem resolve_move_not_normal (rng : Nat → Nat → Nat) (fuel : Nat) (g : SnakeGame)
    (hst : g.status ≠ Status.Normal) :
    (resolve_move rng fuel g).snake.pos = g.snake.pos ∧
    (resolve_move rng fuel g).snake.size = g.snake.size ∧
    (resolve_move rng fuel g).cells = g.cells ∧
    ((resolve_move rng fuel g).status = g.status ∨
     (resolve_move rng fuel g).status = (if g.two_player then Status.Over2 else Status.Over)) := by
  by_cases hleg : (g.snake.pos.neighbor (effDir g.last_key g.snake.dir)).is_legal = true
  · by_cases hobs : isObstacle (cellAt g (g.snake.pos.neighbor (effDir g.last_key g.snake.dir)))
    · rw [resolve_move_collides rng fuel g hleg hobs]
      exact ⟨rfl, rfl, rfl, Or.inr rfl⟩
    · rw [resolve_move_blocked rng fuel g hleg hobs hst]
      exact ⟨rfl, rfl, rfl, Or.inl rfl⟩
  · rw [resolve_move_skips rng fuel g hleg]
    exact ⟨rfl, rfl, rfl, Or.inl rfl⟩

/-- In a non-`Normal` phase `resolve_move2` moves nothing either. -/
theorem resolve_move2_not_normal (rng : Nat → Nat → Nat) (fuel : Nat) (g : SnakeGame)
    (hst : g.status ≠ Status.Normal) :
    (resolve_move2 rng fuel g).snake2.pos = g.snake2.pos ∧
    (resolve_move2 rng fuel g).snake2.size = g.snake2.size ∧
    (resolve_move2 rng fuel g).cells = g.cells ∧
    ((resolve_move2 rng fuel g).status = g.status ∨
     (resolve_move2 rng fuel g).status = Status.Over1) := by
  by_cases hleg : (g.snake2.pos.neighbor (effDir g.last_key2 g.snake2.dir)).is_legal = true
  · by_cases hobs : isObstacle (cellAt g (g.snake2.pos.neighbor (effDir g.last_key2 g.snake2.dir)))
    · rw [resolve_move2_collides rng fuel g hleg hobs]
      exact ⟨rfl, rfl, rfl, Or.inr rfl⟩
    · rw [resolve_move2_blocked rng fuel g hleg hobs hst]
      exact ⟨rfl, rfl, rfl, Or.inl rfl⟩
  · rw [resolve_move2_skips rng fuel g hleg]
    exact ⟨rfl, rfl, rfl, Or.inl rfl⟩

/-- Field-level form of `resolve_move2_collides` for chaining after player
1's resolution. -/
theorem resolve_move2_collides_status (rng : Nat → Nat → Nat) (fuel : Nat) (g : SnakeGame)
    (hleg : (g.snake2.pos.neighbor (effDir g.last_key2 g.snake2.dir)).is_legal = true)
    (hobs : isObstacle (cellAt g (g.snake2.pos.neighbor (effDir g.last_key2 g.snake2.dir)))) :
    (resolve_move2 rng fuel g).status = Status.Over1 := by
  rw [resolve_move2_collides rng fuel g hleg hobs]

/-- C7 (amended): while the countdown is positive a `tick` leaves the grid,
both snakes, the phase and the pending inputs unchanged, decrements the
countdown and (beyond the claim as stated) advances the wrapped total-tick
counter; when the countdown is zero the simulation step `update` runs on the
state with the countdown reset to `UPDATE_FREQUENCY`. -/
theorem C7_tick_scheduler (rng : Nat → Nat → Nat) (fuel : Nat) (g : SnakeGame) :
    (0 < g.countdown →
      tick rng fuel g =
        { g with
          countdown := g.countdown - 1,
          total_ticks := if g.total_ticks + 1 = USIZE_MAX then 0 else g.total_ticks + 1 }) ∧
    (g.countdown = 0 →
      tick rng fuel g =
        update rng fuel
          { g with
            countdown := UPDATE_FREQUENCY,
            total_ticks := if g.total_ticks + 1 = USIZE_MAX then 0 else g.total_ticks + 1 }) := by
  constructor
  · intro h
    have h0 : ¬ g.countdown = 0 := by omega
    simp only [tick]
    rw [if_neg h0]
  · intro h
    simp only [tick]
    rw [if_pos h]

/-- Witness for C7 at a concrete mid-countdown state. -/
theorem C7_tick_scheduler_witness :
    0 < gFirst.countdown ∧
    tick rng0 0 gFirst =
      { gFirst with
        countdown := gFirst.countdown - 1,
        total_ticks := if gFirst.total_ticks + 1 = USIZE_MAX then 0
                       else gFirst.total_ticks + 1 } :=
  ⟨by decide, (C7_tick_scheduler rng0 0 gFirst).1 (by decide)⟩

/-- Counterexample to C7 as stated: a mid-countdown `tick` does not change
*only* the countdown — the total-tick counter (which seeds the food RNG)
advances as well. -/
theorem C7_tick_scheduler_cex :
    0 < gFirst.countdown ∧
    tick rng0 0 gFirst ≠ { gFirst with countdown := gFirst.countdown - 1 } := by
  refine ⟨by decide, fun h => ?_⟩
  have h1 : (tick rng0 0 gFirst).total_ticks
      = ({ gFirst with countdown := gFirst.countdown - 1 } : SnakeGame).total_ticks :=
    congrArg SnakeGame.total_ticks h
  rw [show (tick rng0 0 gFirst).total_ticks = 1 from by decide] at h1
  exact absurd h1 (by decide)

/-- C4 (amended): `update` clears both pending-input slots unconditionally;
for each player actually resolved this tick (player 1 always, player 2 only
in two-player mode — in single-player mode player 2's buffered direction is
discarded without being applied), a buffered direction equal to the reverse
of that snake's current heading leaves the heading unchanged, and any other
buffered direction becomes the new heading. -/
theorem C4_input_application (rng : Nat → Nat → Nat) (fuel : Nat) (g : SnakeGame) :
    (update rng fuel g).last_key = none ∧
    (update rng fuel g).last_key2 = none ∧
    (g.last_key = some g.snake.dir.reverse →
      (update rng fuel g).snake.dir = g.snake.dir) ∧
    (∀ d, g.last_key = some d → d ≠ g.snake.dir.reverse →
      (update rng fuel g).snake.dir = d) ∧
    (g.two_player = true → g.last_key2 = some g.snake2.dir.reverse →
      (update rng fuel g).snake2.dir = g.snake2.dir) ∧
    (∀ d, g.two_player = true → g.last_key2 = some d → d ≠ g.snake2.dir.reverse →
      (update rng fuel g).snake2.dir = d) := by
  have hdir : (update rng fuel g).snake.dir = effDir g.last_key g.snake.dir := by
    unfold update
    by_cases htp : g.two_player = true <;> simp [htp]
  have hdir2 : g.two_player = true →
      (update rng fuel g).snake2.dir = effDir g.last_key2 g.snake2.dir := by
    intro htp
    unfold update
    simp [htp]
  refine ⟨rfl, rfl, ?_, ?_, ?_, ?_⟩
  · intro h; rw [hdir, h, effDir_reverse]
  · intro d h hne; rw [hdir, h, effDir_other d _ hne]
  · intro htp h; rw [hdir2 htp, h, effDir_reverse]
  · intro d htp h hne; rw [hdir2 htp, h, effDir_other d _ hne]

/-- Witness for C4 at a concrete state with buffered input. -/
theorem C4_input_application_witness :
    ((update rng0 0 gIgnored).last_key = none ∧
     (update rng0 0 gIgnored).last_key2 = none) ∧
    (gIgnored.last_key = some gIgnored.snake.dir.reverse →
      (update rng0 0 gIgnored).snake.dir = gIgnored.snake.dir) :=
  ⟨⟨(C4_input_application rng0 0 gIgnored).1,
    (C4_input_application rng0 0 gIgnored).2.1⟩,
   (C4_input_application rng0 0 gIgnored).2.2.1⟩

/-- Counterexample to C4 as stated ("for every player"): in single-player
mode a buffered, non-reversing direction for player 2 is cleared but never
adopted as player 2's heading. -/
theorem C4_input_application_cex :
    gIgnored.two_player = false ∧
    gIgnored.last_key2 = some Dir.E ∧
    Dir.E ≠ gIgnored.snake2.dir.reverse ∧
    (update rng0 0 gIgnored).snake2.dir ≠ Dir.E ∧
    (update rng0 0 gIgnored).last_key2 = none := by
  refine ⟨rfl, rfl, by decide, ?_, rfl⟩
  intro h
  have h2 : (update rng0 0 gIgnored).snake2.dir = Dir.N := by decide
  rw [h2] at h
  exact Dir.noConfusion h

/-- C10: in two-player mode, when both players' (post-input) destinations
are legal obstacle cells in the same tick, player 1's collision first sets
`Over2` and player 2's collision check still runs and overwrites the phase
with `Over1`; a simultaneous double collision is always recorded as a
player 1 win. -/
theorem C10_double_collision_over1 (rng : Nat → Nat → Nat) (fuel : Nat) (g : SnakeGame)
    (htp : g.two_player = true) (hst : g.status = Status.Normal)
    (hleg1 : (g.snake.pos.neighbor (effDir g.last_key g.snake.dir)).is_legal = true)
    (hobs1 : isObstacle (cellAt g (g.snake.pos.neighbor (effDir g.last_key g.snake.dir))))
    (hleg2 : (g.snake2.pos.neighbor (effDir g.last_key2 g.snake2.dir)).is_legal = true)
    (hobs2 : isObstacle (cellAt g (g.snake2.pos.neighbor (effDir g.last_key2 g.snake2.dir)))) :
    (resolve_move rng fuel g).status = Status.Over2 ∧
    (update rng fuel g).status = Status.Over1 := by
  have hga := resolve_move_collides rng fuel g hleg1 hobs1
  constructor
  · rw [hga, htp]; rfl
  · have h1 : (resolve_move rng fuel g).two_player = true := by
      rw [resolve_move_two_player]; exact htp
    have hcells : (resolve_move rng fuel g).cells = g.cells := by rw [hga]
    have hstat : (resolve_move2 rng fuel (resolve_move rng fuel g)).status = Status.Over1 := by
      apply resolve_move2_collides_status
      · rw [resolve_move_snake2, resolve_move_last_key2]; exact hleg2
      · rw [resolve_move_snake2, resolve_move_last_key2, cellAt, hcells]; exact hobs2
    simp only [update]
    rw [if_pos h1]
    exact hstat

/-- Witness for C10 at the concrete double-collision state. -/
theorem C10_double_collision_over1_witness :
    (gDouble.two_player = true ∧ gDouble.status = Status.Normal ∧
     isObstacle (cellAt gDouble
        (gDouble.snake.pos.neighbor (effDir gDouble.last_key gDouble.snake.dir))) ∧
     isObstacle (cellAt gDouble
        (gDouble.snake2.pos.neighbor (effDir gDouble.last_key2 gDouble.snake2.dir)))) ∧
    ((resolve_move rng0 0 gDouble).status = Status.Over2 ∧
     (update rng0 0 gDouble).status = Status.Over1) :=
  ⟨⟨rfl, rfl, by decide, by decide⟩,
   C10_double_collision_over1 rng0 0 gDouble rfl rfl (by decide) (by decide)
     (by decide) (by decide)⟩

/-- In two-player mode, `update` is exactly: resolve player 1, then player 2,
then clear both inputs. -/
theorem update_eq_two (rng : Nat → Nat → Nat) (fuel : Nat) (g : SnakeGame)
    (htp : g.two_player = true) :
    update rng fuel g =
      { resolve_move2 rng fuel (resolve_move rng fuel g) with
        last_key := none, last_key2 := none } := by
  simp only [update]
  rw [if_pos (show (resolve_move rng fuel g).two_player = true from by
    rw [resolve_move_two_player]; exact htp)]

/-- In single-player mode, `update` is exactly: resolve player 1, then clear
both inputs. -/
theorem update_eq_one (rng : Nat → Nat → Nat) (fuel : Nat) (g : SnakeGame)
    (htp : g.two_player = false) :
    update rng fuel g =
      { resolve_move rng fuel g with last_key := none, last_key2 := none } := by
  simp only [update]
  rw [if_neg (show ¬ (resolve_move rng fuel g).two_player = true from by
    rw [resolve_move_two_player, htp]; exact Bool.false_ne_true)]

/-- C3: player 1 is resolved fully before player 2, so player 2's collision
check reads the grid including player 1's just-placed same-tick `Body`
segment: when player 2's (post-input) destination is the cell player 1
vacates and marks `Body` this tick, the phase becomes `Over1` while player
1's position, heading and length keep the values its own resolution
produced. -/
theorem C3_sequential_over1 (rng : Nat → Nat → Nat) (fuel : Nat) (g : SnakeGame)
    (htp : g.two_player = true) (hst : g.status = Status.Normal)
    (hhead : g.snake.pos.is_legal = true)
    (hleg1 : (g.snake.pos.neighbor (effDir g.last_key g.snake.dir)).is_legal = true)
    (hdest1 : cellAt g (g.snake.pos.neighbor (effDir g.last_key g.snake.dir)) = Cell.Empty)
    (hidx : g.snake.remove_index ≠ g.snake.insert_index)
    (htail : g.snake.body g.snake.remove_index ≠ g.snake.pos)
    (htailleg : (g.snake.body g.snake.remove_index).is_legal = true)
    (hn2 : g.snake2.pos.neighbor (effDir g.last_key2 g.snake2.dir) = g.snake.pos) :
    (update rng fuel g).status = Status.Over1 ∧
    (update rng fuel g).snake.pos = g.snake.pos.neighbor (effDir g.last_key g.snake.dir) ∧
    (update rng fuel g).snake.dir = effDir g.last_key g.snake.dir ∧
    (update rng fuel g).snake.size = g.snake.size := by
  have hobs1 : ¬ isObstacle (cellAt g (g.snake.pos.neighbor (effDir g.last_key g.snake.dir))) := by
    rw [hdest1]; rintro (h | h | h) <;> exact Cell.noConfusion h
  have hne1 := legal_coords_ne hleg1 hhead (neighbor_ne g.snake.pos (effDir g.last_key g.snake.dir))
  have hdest1' : g.cells (g.snake.pos.neighbor (effDir g.last_key g.snake.dir)).row.toNat
      (g.snake.pos.neighbor (effDir g.last_key g.snake.dir)).col.toNat = Cell.Empty := hdest1
  have hcellB : setCell g.cells g.snake.pos.row.toNat g.snake.pos.col.toNat Cell.Body
      (g.snake.pos.neighbor (effDir g.last_key g.snake.dir)).row.toNat
      (g.snake.pos.neighbor (effDir g.last_key g.snake.dir)).col.toNat ≠ Cell.Food := by
    rw [setCell_other _ _ _ _ _ _ hne1, hdest1']
    rintro h; exact Cell.noConfusion h
  have hrm := resolve_move_moves rng fuel g hleg1 hobs1 hst
  rw [move_to_nonfood rng fuel
      { g with snake := { g.snake with dir := effDir g.last_key g.snake.dir } }
      (g.snake.pos.neighbor (effDir g.last_key g.snake.dir))
      (effDir g.last_key g.snake.dir) hcellB] at hrm
  rw [update_snake_body_nongrow] at hrm
  have hclr : setBody g.snake.body g.snake.insert_index g.snake.pos g.snake.remove_index
      = g.snake.body g.snake.remove_index := by
    simp only [setBody, if_neg hidx]
  have hBody : cellAt (resolve_move rng fuel g) g.snake.pos = Cell.Body := by
    rw [cellAt, hrm]
    show setCell (setCell g.cells g.snake.pos.row.toNat g.snake.pos.col.toNat Cell.Body)
        (setBody g.snake.body g.snake.insert_index g.snake.pos g.snake.remove_index).row.toNat
        (setBody g.snake.body g.snake.insert_index g.snake.pos g.snake.remove_index).col.toNat
        Cell.Empty g.snake.pos.row.toNat g.snake.pos.col.toNat = Cell.Body
    rw [hclr]
    rw [setCell_other _ _ _ _ _ _ (legal_coords_ne hhead htailleg (Ne.symm htail))]
    exact setCell_same _ _ _ _
  have hupd := update_eq_two rng fuel g htp
  have hsn : (update rng fuel g).snake = (resolve_move rng fuel g).snake := by
    rw [hupd]; exact resolve_move2_snake rng fuel (resolve_move rng fuel g)
  refine ⟨?_, ?_, ?_, ?_⟩
  · rw [hupd]
    show (resolve_move2 rng fuel (resolve_move rng fuel g)).status = Status.Over1
    apply resolve_move2_collides_status
    · rw [resolve_move_snake2, resolve_move_last_key2, hn2]; exact hhead
    · rw [resolve_move_snake2, resolve_move_last_key2, hn2, hBody]
      exact Or.inl rfl
  · rw [hsn, hrm]
  · rw [hsn, hrm]
  · rw [hsn, hrm]

/-- Witness for C3 at a concrete chase state. -/
theorem C3_sequential_over1_witness :
    (gChase.two_player = true ∧ gChase.status = Status.Normal ∧
     gChase.snake2.pos.neighbor (effDir gChase.last_key2 gChase.snake2.dir)
        = gChase.snake.pos) ∧
    ((update rng0 0 gChase).status = Status.Over1 ∧
     (update rng0 0 gChase).snake.pos
        = gChase.snake.pos.neighbor (effDir gChase.last_key gChase.snake.dir) ∧
     (update rng0 0 gChase).snake.dir = effDir gChase.last_key gChase.snake.dir ∧
     (update rng0 0 gChase).snake.size = gChase.snake.size) :=
  ⟨⟨rfl, rfl, by decide⟩,
   C3_sequential_over1 rng0 0 gChase rfl rfl (by decide) (by decide) (by decide)
     (by decide) (by decide) (by decide) (by decide)⟩

/-- C1 (amended): from phase `Normal`, a snake whose legal (post-input)
destination holds `Wall`, `Body` or `Body2` makes the phase terminal in one
update: `Over` in single-player mode; in two-player mode `Over2` when player
1 collides, unless player 2's own destination is also a legal obstacle, in
which case player 2's later check overwrites the phase to `Over1`; `Over1`
whenever player 2's destination (read after player 1's resolution) is a
legal obstacle.  From any terminal phase, an update never moves either head
and the phase stays terminal. -/
theorem C1_collision_terminal (rng : Nat → Nat → Nat) (fuel : Nat) (g : SnakeGame) :
    (g.status = Status.Normal →
     (g.snake.pos.neighbor (effDir g.last_key g.snake.dir)).is_legal = true →
     isObstacle (cellAt g (g.snake.pos.neighbor (effDir g.last_key g.snake.dir))) →
     ((g.two_player = false → (update rng fuel g).status = Status.Over) ∧
      (g.two_player = true →
        (update rng fuel g).status =
          if (g.snake2.pos.neighbor (effDir g.last_key2 g.snake2.dir)).is_legal = true
              ∧ isObstacle (cellAt g (g.snake2.pos.neighbor (effDir g.last_key2 g.snake2.dir)))
          then Status.Over1 else Status.Over2))) ∧
    (g.two_player = true →
     (g.snake2.pos.neighbor (effDir g.last_key2 g.snake2.dir)).is_legal = true →
     isObstacle (cellAt (resolve_move rng fuel g)
        (g.snake2.pos.neighbor (effDir g.last_key2 g.snake2.dir))) →
     (update rng fuel g).status = Status.Over1) ∧
    ((g.status = Status.Over ∨ g.status = Status.Over1 ∨ g.status = Status.Over2) →
     ((update rng fuel g).snake.pos = g.snake.pos ∧
      (update rng fuel g).snake2.pos = g.snake2.pos ∧
      ((update rng fuel g).status = Status.Over ∨ (update rng fuel g).status = Status.Over1 ∨
       (update rng fuel g).status = Status.Over2))) := by
  refine ⟨?_, ?_, ?_⟩
  · -- player 1 collides from Normal
    intro hst hleg1 hobs1
    have hga := resolve_move_collides rng fuel g hleg1 hobs1
    have hcells : (resolve_move rng fuel g).cells = g.cells := by rw [hga]
    constructor
    · intro htp
      rw [update_eq_one rng fuel g htp]
      show (resolve_move rng fuel g).status = Status.Over
      rw [hga]
      show (if g.two_player = true then Status.Over2 else Status.Over) = Status.Over
      rw [htp]
      rfl
    · intro htp
      rw [update_eq_two rng fuel g htp]
      show (resolve_move2 rng fuel (resolve_move rng fuel g)).status
          = if _ then Status.Over1 else Status.Over2
      have hstga : (resolve_move rng fuel g).status = Status.Over2 := by
        rw [hga]
        show (if g.two_player = true then Status.Over2 else Status.Over) = Status.Over2
        rw [htp]
        rfl
      by_cases hc2 : (g.snake2.pos.neighbor (effDir g.last_key2 g.snake2.dir)).is_legal = true
          ∧ isObstacle (cellAt g (g.snake2.pos.neighbor (effDir g.last_key2 g.snake2.dir)))
      · rw [if_pos hc2]
        apply resolve_move2_collides_status
        · rw [resolve_move_snake2, resolve_move_last_key2]; exact hc2.1
        · rw [resolve_move_snake2, resolve_move_last_key2, cellAt, hcells]; exact hc2.2
      · rw [if_neg hc2]
        by_cases hleg2 : (g.snake2.pos.neighbor (effDir g.last_key2 g.snake2.dir)).is_legal = true
        · have hobs2 : ¬ isObstacle (cellAt g
              (g.snake2.pos.neighbor (effDir g.last_key2 g.snake2.dir))) := by
            intro hx; exact hc2 ⟨hleg2, hx⟩
          have hb := resolve_move2_blocked rng fuel (resolve_move rng fuel g)
            (by rw [resolve_move_snake2, resolve_move_last_key2]; exact hleg2)
            (by rw [resolve_move_snake2, resolve_move_last_key2, cellAt, hcells]; exact hobs2)
            (by rw [hstga]; exact fun hx => Status.noConfusion hx)
          rw [hb]
          exact hstga
        · have hb := resolve_move2_skips rng fuel (resolve_move rng fuel g)
            (by rw [resolve_move_snake2, resolve_move_last_key2]; exact hleg2)
          rw [hb]
          exact hstga
  · -- player 2 collides against the post-player-1 grid
    intro htp hleg2 hobs2
    rw [update_eq_two rng fuel g htp]
    show (resolve_move2 rng fuel (resolve_move rng fuel g)).status = Status.Over1
    apply resolve_move2_collides_status
    · rw [resolve_move_snake2, resolve_move_last_key2]; exact hleg2
    · rw [resolve_move_snake2, resolve_move_last_key2]; exact hobs2
  · -- terminal phases freeze both heads
    intro ht
    have hne : g.status ≠ Status.Normal := by
      rcases ht with h | h | h <;> rw [h] <;> exact fun hx => Status.noConfusion hx
    obtain ⟨hpos1, _, hcellsa, hsta⟩ := resolve_move_not_normal rng fuel g hne
    have hterma : (resolve_move rng fuel g).status = Status.Over ∨
        (resolve_move rng fuel g).status = Status.Over1 ∨
        (resolve_move rng fuel g).status = Status.Over2 := by
      rcases hsta with h | h
      · rw [h]; exact ht
      · rw [h]
        by_cases htp : g.two_player = true
        · rw [if_pos htp]; exact Or.inr (Or.inr rfl)
        · rw [if_neg htp]; exact Or.inl rfl
    have hnea : (resolve_move rng fuel g).status ≠ Status.Normal := by
      rcases hterma with h | h | h <;> rw [h] <;> exact fun hx => Status.noConfusion hx
    by_cases htp : g.two_player = true
    · obtain ⟨hpos2, _, _, hstb⟩ :=
        resolve_move2_not_normal rng fuel (resolve_move rng fuel g) hnea
      rw [update_eq_two rng fuel g htp]
      refine ⟨?_, ?_, ?_⟩
      · show (resolve_move2 rng fuel (resolve_move rng fuel g)).snake.pos = g.snake.pos
        rw [resolve_move2_snake]
        exact hpos1
      · show (resolve_move2 rng fuel (resolve_move rng fuel g)).snake2.pos = g.snake2.pos
        rw [hpos2, resolve_move_snake2]
      · show (resolve_move2 rng fuel (resolve_move rng fuel g)).status = Status.Over ∨ _ ∨ _
        rcases hstb with h | h
        · rw [h]; exact hterma
        · rw [h]; exact Or.inr (Or.inl rfl)
    · have htp' : g.two_player = false := by
        cases hx : g.two_player
        · rfl
        · exact absurd hx htp
      rw [update_eq_one rng fuel g htp']
      refine ⟨hpos1, ?_, ?_⟩
      · show (resolve_move rng fuel g).snake2.pos = g.snake2.pos
        rw [resolve_move_snake2]
      · exact hterma

/-- Witness for C1: a single-player snake facing the wall; one update makes
the phase `Over`, and from that terminal state a further update moves
nothing. -/
theorem C1_collision_terminal_witness :
    (gWall.status = Status.Normal ∧ gWall.two_player = false ∧
     isObstacle (cellAt gWall (gWall.snake.pos.neighbor (effDir gWall.last_key gWall.snake.dir)))) ∧
    (update rng0 0 gWall).status = Status.Over ∧
    ((update rng0 0 (update rng0 0 gWall)).snake.pos = (update rng0 0 gWall).snake.pos ∧
     (update rng0 0 (update rng0 0 gWall)).snake2.pos = (update rng0 0 gWall).snake2.pos ∧
     ((update rng0 0 (update rng0 0 gWall)).status = Status.Over ∨
      (update rng0 0 (update rng0 0 gWall)).status = Status.Over1 ∨
      (update rng0 0 (update rng0 0 gWall)).status = Status.Over2)) :=
  ⟨⟨rfl, rfl, by decide⟩,
   ((C1_collision_terminal rng0 0 gWall).1 rfl (by decide) (by decide)).1 rfl,
   (C1_collision_terminal rng0 0 (update rng0 0 gWall)).2.2
     (Or.inl (((C1_collision_terminal rng0 0 gWall).1 rfl (by decide) (by decide)).1 rfl))⟩

/-- Counterexample to C1 as stated: in the two-player double-collision state
player 1's destination is a legal obstacle, yet the update does not end in
`Over2` (player 2's check overwrites the phase to `Over1`). -/
theorem C1_collision_terminal_cex :
    gDouble.status = Status.Normal ∧ gDouble.two_player = true ∧
    (gDouble.snake.pos.neighbor (effDir gDouble.last_key gDouble.snake.dir)).is_legal = true ∧
    isObstacle (cellAt gDouble
      (gDouble.snake.pos.neighbor (effDir gDouble.last_key gDouble.snake.dir))) ∧
    (update rng0 0 gDouble).status ≠ Status.Over2 := by
  refine ⟨rfl, rfl, by decide, by decide, ?_⟩
  intro h
  have h2 : (update rng0 0 gDouble).status = Status.Over1 := by decide
  rw [h2] at h
  exact Status.noConfusion h

/-! ### The food spawner (C8, C2) -/

theorem foodRow_ge_one (u : Nat) : 1 ≤ foodRow u := by
  unfold foodRow; omega

theorem foodCol_ge_one (u : Nat) : 1 ≤ foodCol u := by
  unfold foodCol; omega

theorem foodRow_le (u : Nat) : foodRow u ≤ HEIGHT - 3 := by
  unfold foodRow
  have hH : HEIGHT = 23 := by decide
  rw [hH]
  have h2 : u % 2 ^ 32 < 2 ^ 32 := Nat.mod_lt u (by norm_num)
  have h1 : u % 2 ^ 32 ≤ 2 ^ 32 - 1 := by omega
  have h3 : (u % 2 ^ 32) * (23 - 3) / 2 ^ 32 ≤ (2 ^ 32 - 1) * (23 - 3) / 2 ^ 32 :=
    Nat.div_le_div_right (Nat.mul_le_mul h1 (le_refl _))
  have h4 : (2 ^ 32 - 1) * (23 - 3) / 2 ^ 32 = 19 := by decide
  omega

theorem foodCol_le (u : Nat) : foodCol u ≤ WIDTH - 3 := by
  unfold foodCol
  have hW : WIDTH = 80 := by decide
  rw [hW]
  have h2 : u % 2 ^ 32 < 2 ^ 32 := Nat.mod_lt u (by norm_num)
  have h1 : u % 2 ^ 32 ≤ 2 ^ 32 - 1 := by omega
  have h3 : (u % 2 ^ 32) * (80 - 3) / 2 ^ 32 ≤ (2 ^ 32 - 1) * (80 - 3) / 2 ^ 32 :=
    Nat.div_le_div_right (Nat.mul_le_mul h1 (le_refl _))
  have h4 : (2 ^ 32 - 1) * (80 - 3) / 2 ^ 32 = 76 := by decide
  omega

/-- A successful candidate search returns an interior cell that was empty. -/
theorem findFoodCell_spec (cells : Nat → Nat → Cell) (stream : Nat → Nat) :
    ∀ fuel i r c, findFoodCell cells stream i fuel = some (r, c) →
      1 ≤ r ∧ r ≤ HEIGHT - 3 ∧ 1 ≤ c ∧ c ≤ WIDTH - 3 ∧ cells r c = Cell.Empty := by
  intro fuel
  induction fuel with
  | zero =>
    intro i r c h
    exact absurd h (by simp [findFoodCell])
  | succ n ih =>
    intro i r c h
    simp only [findFoodCell] at h
    by_cases hc : cells (foodRow (stream (2 * i))) (foodCol (stream (2 * i + 1))) = Cell.Empty
    · rw [if_pos hc] at h
      have hr : foodRow (stream (2 * i)) = r := congrArg Prod.fst (Option.some.inj h)
      have hcc : foodCol (stream (2 * i + 1)) = c := congrArg Prod.snd (Option.some.inj h)
      refine ⟨?_, ?_, ?_, ?_, ?_⟩
      · rw [← hr]; exact foodRow_ge_one _
      · rw [← hr]; exact foodRow_le _
      · rw [← hcc]; exact foodCol_ge_one _
      · rw [← hcc]; exact foodCol_le _
      · rw [← hr, ← hcc]; exact hc
    · rw [if_neg hc] at h
      exact ih (i + 1) r c h

/-- A successful `new_food` marks exactly the found cell. -/
theorem new_food_found (rng : Nat → Nat → Nat) (fuel : Nat) (g : SnakeGame) (r c : Nat)
    (hf : findFoodCell g.cells (rng g.total_ticks) 0 fuel = some (r, c)) :
    new_food rng fuel g = { g with cells := setCell g.cells r c Cell.Food } := by
  unfold new_food
  rw [hf]

/-- C8: a (terminating) call to the food spawner marks exactly one cell
`Food`: the first candidate of the tick-seeded stream that lies on an
`Empty` cell; its row is in `[1, HEIGHT-2]` and its column in
`[1, WIDTH-2]`, non-empty candidates having been rejected and resampled;
and the placement is a function of the grid and the tick counter alone. -/
theorem C8_food_spawner (rng : Nat → Nat → Nat) (fuel : Nat) (g : SnakeGame) (r c : Nat)
    (hf : findFoodCell g.cells (rng g.total_ticks) 0 fuel = some (r, c)) :
    1 ≤ r ∧ r ≤ HEIGHT - 2 ∧ 1 ≤ c ∧ c ≤ WIDTH - 2 ∧
    g.cells r c = Cell.Empty ∧
    (new_food rng fuel g).cells = setCell g.cells r c Cell.Food ∧
    (∀ g' : SnakeGame, g'.cells = g.cells → g'.total_ticks = g.total_ticks →
      (new_food rng fuel g').cells = setCell g'.cells r c Cell.Food) := by
  obtain ⟨h1, h2, h3, h4, h5⟩ := findFoodCell_spec g.cells (rng g.total_ticks) fuel 0 r c hf
  refine ⟨h1, by omega, h3, by omega, h5, ?_, ?_⟩
  · rw [new_food_found rng fuel g r c hf]
  · intro g' hcells hticks
    have hf' : findFoodCell g'.cells (rng g'.total_ticks) 0 fuel = some (r, c) := by
      rw [hcells, hticks]; exact hf
    rw [new_food_found rng fuel g' r c hf']

/-- Witness for C8 on an all-empty board with the zero stream. -/
theorem C8_food_spawner_witness :
    (findFoodCell gFirst.cells (rng0 gFirst.total_ticks) 0 1 = some (1, 1)) ∧
    (1 ≤ 1 ∧ 1 ≤ HEIGHT - 2 ∧ 1 ≤ 1 ∧ 1 ≤ WIDTH - 2 ∧
     gFirst.cells 1 1 = Cell.Empty ∧
     (new_food rng0 1 gFirst).cells = setCell gFirst.cells 1 1 Cell.Food ∧
     (∀ g' : SnakeGame, g'.cells = gFirst.cells → g'.total_ticks = gFirst.total_ticks →
       (new_food rng0 1 g').cells = setCell g'.cells 1 1 Cell.Food)) :=
  ⟨by decide, C8_food_spawner rng0 1 gFirst 1 1 (by decide)⟩

theorem mem_foodFS (cells : Nat → Nat → Cell) (rc : Nat × Nat) :
    rc ∈ foodFS cells ↔ rc.1 < HEIGHT ∧ rc.2 < WIDTH ∧ cells rc.1 rc.2 = Cell.Food := by
  simp [foodFS, Finset.mem_filter, Finset.mem_product, Finset.mem_range, and_assoc]

theorem foodFS_set_nonfood (cells : Nat → Nat → Cell) (r c : Nat) (v : Cell)
    (hv : v ≠ Cell.Food) :
    foodFS (setCell cells r c v) = (foodFS cells).erase (r, c) := by
  ext rc
  obtain ⟨a, b⟩ := rc
  rw [Finset.mem_erase, mem_foodFS, mem_foodFS]
  by_cases h : a = r ∧ b = c
  · obtain ⟨ha, hb⟩ := h
    subst ha; subst hb
    simp [setCell_same, hv]
  · rw [setCell_other cells r c v a b h]
    simp [Prod.mk.injEq, h]

theorem foodFS_set_food (cells : Nat → Nat → Cell) (r c : Nat)
    (hr : r < HEIGHT) (hc : c < WIDTH) :
    foodFS (setCell cells r c Cell.Food) = insert (r, c) (foodFS cells) := by
  ext rc
  obtain ⟨a, b⟩ := rc
  rw [Finset.mem_insert, mem_foodFS, mem_foodFS]
  by_cases h : a = r ∧ b = c
  · obtain ⟨ha, hb⟩ := h
    subst ha; subst hb
    simp [setCell_same, hr, hc]
  · rw [setCell_other cells r c Cell.Food a b h]
    simp [Prod.mk.injEq, h]

/-- Legal positions index cells inside the board bounds. -/
theorem legal_bounds {p : Position} (h : p.is_legal = true) :
    p.row.toNat < HEIGHT ∧ p.col.toNat < WIDTH := by
  simp only [Position.is_legal, decide_eq_true_eq] at h
  omega

/-- C2: resolving a move onto `Food` (single-player) clears the food at the
destination, increments the length by exactly 1, marks the vacated head cell
`Body`, grows the body buffer (insert cursor advances, remove cursor stays,
no cell is vacated), and spawns exactly one new `Food` cell on a
previously-`Empty` cell, so the board holds exactly one `Food` cell after
the update (assuming the food search terminates, i.e. the board is not
full). -/
theorem C2_eat_food (rng : Nat → Nat → Nat) (fuel : Nat) (g : SnakeGame) (fr fc : Nat)
    (htp : g.two_player = false)
    (hst : g.status = Status.Normal)
    (hhead : g.snake.pos.is_legal = true)
    (hleg1 : (g.snake.pos.neighbor (effDir g.last_key g.snake.dir)).is_legal = true)
    (hfood : cellAt g (g.snake.pos.neighbor (effDir g.last_key g.snake.dir)) = Cell.Food)
    (hcount : (foodFS g.cells).card = 1)
    (hf : findFoodCell
        (setCell (setCell g.cells g.snake.pos.row.toNat g.snake.pos.col.toNat Cell.Body)
          (g.snake.pos.neighbor (effDir g.last_key g.snake.dir)).row.toNat
          (g.snake.pos.neighbor (effDir g.last_key g.snake.dir)).col.toNat Cell.Empty)
        (rng g.total_ticks) 0 fuel = some (fr, fc)) :
    (update rng fuel g).snake.size = g.snake.size + 1 ∧
    (update rng fuel g).snake.pos = g.snake.pos.neighbor (effDir g.last_key g.snake.dir) ∧
    cellAt (update rng fuel g) g.snake.pos = Cell.Body ∧
    (update rng fuel g).snake.remove_index = g.snake.remove_index ∧
    (update rng fuel g).snake.insert_index
        = (if g.snake.insert_index + 1 = ARRAY_SIZE then 0 else g.snake.insert_index + 1) ∧
    (update rng fuel g).snake.body g.snake.insert_index = g.snake.pos ∧
    (update rng fuel g).cells
        = setCell (setCell (setCell g.cells g.snake.pos.row.toNat g.snake.pos.col.toNat
            Cell.Body)
            (g.snake.pos.neighbor (effDir g.last_key g.snake.dir)).row.toNat
            (g.snake.pos.neighbor (effDir g.last_key g.snake.dir)).col.toNat Cell.Empty)
            fr fc Cell.Food ∧
    setCell (setCell g.cells g.snake.pos.row.toNat g.snake.pos.col.toNat Cell.Body)
        (g.snake.pos.neighbor (effDir g.last_key g.snake.dir)).row.toNat
        (g.snake.pos.neighbor (effDir g.last_key g.snake.dir)).col.toNat Cell.Empty fr fc
        = Cell.Empty ∧
    (foodFS (update rng fuel g).cells).card = 1 := by
  have hobs1 : ¬ isObstacle (cellAt g (g.snake.pos.neighbor (effDir g.last_key g.snake.dir))) := by
    rw [hfood]; rintro (h | h | h) <;> exact Cell.noConfusion h
  have hne1 := legal_coords_ne hleg1 hhead (neighbor_ne g.snake.pos (effDir g.last_key g.snake.dir))
  have hne1' : ¬(g.snake.pos.row.toNat
        = (g.snake.pos.neighbor (effDir g.last_key g.snake.dir)).row.toNat ∧
      g.snake.pos.col.toNat
        = (g.snake.pos.neighbor (effDir g.last_key g.snake.dir)).col.toNat) := by
    intro hx; exact hne1 ⟨hx.1.symm, hx.2.symm⟩
  have hfood' : g.cells (g.snake.pos.neighbor (effDir g.last_key g.snake.dir)).row.toNat
      (g.snake.pos.neighbor (effDir g.last_key g.snake.dir)).col.toNat = Cell.Food := hfood
  have hmk : setCell g.cells g.snake.pos.row.toNat g.snake.pos.col.toNat Cell.Body
      (g.snake.pos.neighbor (effDir g.last_key g.snake.dir)).row.toNat
      (g.snake.pos.neighbor (effDir g.last_key g.snake.dir)).col.toNat = Cell.Food := by
    rw [setCell_other _ _ _ _ _ _ hne1]; exact hfood'
  obtain ⟨hfr1, hfr2, hfc1, hfc2, hfEmpty⟩ :=
    findFoodCell_spec _ (rng g.total_ticks) fuel 0 fr fc hf
  have hrm := resolve_move_moves rng fuel g hleg1 hobs1 hst
  rw [move_to_food rng fuel
      { g with snake := { g.snake with dir := effDir g.last_key g.snake.dir } }
      (g.snake.pos.neighbor (effDir g.last_key g.snake.dir))
      (effDir g.last_key g.snake.dir) hmk] at hrm
  rw [new_food_found rng fuel
      { g with
        cells := setCell
          (setCell g.cells g.snake.pos.row.toNat g.snake.pos.col.toNat Cell.Body)
          (g.snake.pos.neighbor (effDir g.last_key g.snake.dir)).row.toNat
          (g.snake.pos.neighbor (effDir g.last_key g.snake.dir)).col.toNat Cell.Empty,
        snake := { g.snake with
          pos := g.snake.pos.neighbor (effDir g.last_key g.snake.dir),
          dir := effDir g.last_key g.snake.dir,
          size := g.snake.size + 1 } }
      fr fc hf] at hrm
  rw [update_snake_body_grow] at hrm
  have hupd := update_eq_one rng fuel g htp
  have hcne : ¬(g.snake.pos.row.toNat = fr ∧ g.snake.pos.col.toNat = fc) := by
    rintro ⟨h1, h2⟩
    rw [← h1, ← h2] at hfEmpty
    rw [setCell_other _ _ _ _ _ _ hne1'] at hfEmpty
    rw [setCell_same] at hfEmpty
    exact Cell.noConfusion hfEmpty
  have hbounds1 := legal_bounds hleg1
  refine ⟨?_, ?_, ?_, ?_, ?_, ?_, ?_, hfEmpty, ?_⟩
  · rw [hupd]
    show (resolve_move rng fuel g).snake.size = g.snake.size + 1
    rw [hrm]
  · rw [hupd]
    show (resolve_move rng fuel g).snake.pos = _
    rw [hrm]
  · rw [cellAt, hupd]
    show (resolve_move rng fuel g).cells g.snake.pos.row.toNat g.snake.pos.col.toNat = Cell.Body
    rw [hrm]
    show setCell (setCell
        (setCell g.cells g.snake.pos.row.toNat g.snake.pos.col.toNat Cell.Body)
        (g.snake.pos.neighbor (effDir g.last_key g.snake.dir)).row.toNat
        (g.snake.pos.neighbor (effDir g.last_key g.snake.dir)).col.toNat Cell.Empty)
        fr fc Cell.Food g.snake.pos.row.toNat g.snake.pos.col.toNat = Cell.Body
    rw [setCell_other _ _ _ _ _ _ hcne, setCell_other _ _ _ _ _ _ hne1', setCell_same]
  · rw [hupd]
    show (resolve_move rng fuel g).snake.remove_index = g.snake.remove_index
    rw [hrm]
  · rw [hupd]
    show (resolve_move rng fuel g).snake.insert_index = _
    rw [hrm]
  · rw [hupd]
    show (resolve_move rng fuel g).snake.body g.snake.insert_index = g.snake.pos
    rw [hrm]
    show setBody g.snake.body g.snake.insert_index g.snake.pos g.snake.insert_index
        = g.snake.pos
    simp [setBody]
  · rw [hupd]
    show (resolve_move rng fuel g).cells = _
    rw [hrm]
  · rw [hupd]
    show (foodFS (resolve_move rng fuel g).cells).card = 1
    rw [hrm]
    show (foodFS (setCell (setCell
        (setCell g.cells g.snake.pos.row.toNat g.snake.pos.col.toNat Cell.Body)
        (g.snake.pos.neighbor (effDir g.last_key g.snake.dir)).row.toNat
        (g.snake.pos.neighbor (effDir g.last_key g.snake.dir)).col.toNat Cell.Empty)
        fr fc Cell.Food)).card = 1
    obtain ⟨x, hx⟩ := Finset.card_eq_one.mp hcount
    have hmem : ((g.snake.pos.neighbor (effDir g.last_key g.snake.dir)).row.toNat,
        (g.snake.pos.neighbor (effDir g.last_key g.snake.dir)).col.toNat) ∈ foodFS g.cells :=
      (mem_foodFS _ _).mpr ⟨hbounds1.1, hbounds1.2, hfood'⟩
    rw [hx, Finset.mem_singleton] at hmem
    have hS0 : foodFS g.cells
        = {((g.snake.pos.neighbor (effDir g.last_key g.snake.dir)).row.toNat,
            (g.snake.pos.neighbor (effDir g.last_key g.snake.dir)).col.toNat)} := by
      rw [hx, ← hmem]
    rw [foodFS_set_food _ _ _ (by omega) (by omega)]
    rw [foodFS_set_nonfood _ _ _ _ (fun h => Cell.noConfusion h)]
    rw [foodFS_set_nonfood _ _ _ _ (fun h => Cell.noConfusion h)]
    rw [hS0]
    have hcurr_notmem : (g.snake.pos.row.toNat, g.snake.pos.col.toNat)
        ∉ ({((g.snake.pos.neighbor (effDir g.last_key g.snake.dir)).row.toNat,
            (g.snake.pos.neighbor (effDir g.last_key g.snake.dir)).col.toNat)}
            : Finset (Nat × Nat)) := by
      rw [Finset.mem_singleton]
      intro hx2
      have h1 : g.snake.pos.row.toNat
          = (g.snake.pos.neighbor (effDir g.last_key g.snake.dir)).row.toNat :=
        congrArg Prod.fst hx2
      have h2 : g.snake.pos.col.toNat
          = (g.snake.pos.neighbor (effDir g.last_key g.snake.dir)).col.toNat :=
        congrArg Prod.snd hx2
      exact hne1' ⟨h1, h2⟩
    rw [Finset.erase_eq_of_not_mem hcurr_notmem, Finset.erase_singleton]
    simp

set_option maxRecDepth 400000 in
/-- Witness for C2: eating the only food increments the length, keeps the
remove cursor, and leaves exactly one food cell on the board. -/
theorem C2_eat_food_witness :
    (gEat.two_player = false ∧ gEat.status = Status.Normal ∧
     cellAt gEat (gEat.snake.pos.neighbor (effDir gEat.last_key gEat.snake.dir))
        = Cell.Food ∧
     (foodFS gEat.cells).card = 1) ∧
    ((update rng0 1 gEat).snake.size = gEat.snake.size + 1 ∧
     (update rng0 1 gEat).snake.pos
        = gEat.snake.pos.neighbor (effDir gEat.last_key gEat.snake.dir) ∧
     cellAt (update rng0 1 gEat) gEat.snake.pos = Cell.Body ∧
     (update rng0 1 gEat).snake.remove_index = gEat.snake.remove_index ∧
     (update rng0 1 gEat).snake.insert_index
        = (if gEat.snake.insert_index + 1 = ARRAY_SIZE then 0
           else gEat.snake.insert_index + 1) ∧
     (update rng0 1 gEat).snake.body gEat.snake.insert_index = gEat.snake.pos ∧
     (update rng0 1 gEat).cells
        = setCell (setCell (setCell gEat.cells gEat.snake.pos.row.toNat
            gEat.snake.pos.col.toNat Cell.Body)
            (gEat.snake.pos.neighbor (effDir gEat.last_key gEat.snake.dir)).row.toNat
            (gEat.snake.pos.neighbor (effDir gEat.last_key gEat.snake.dir)).col.toNat
            Cell.Empty)
            1 1 Cell.Food ∧
     setCell (setCell gEat.cells gEat.snake.pos.row.toNat gEat.snake.pos.col.toNat
          Cell.Body)
        (gEat.snake.pos.neighbor (effDir gEat.last_key gEat.snake.dir)).row.toNat
        (gEat.snake.pos.neighbor (effDir gEat.last_key gEat.snake.dir)).col.toNat
        Cell.Empty 1 1 = Cell.Empty ∧
     (foodFS (update rng0 1 gEat).cells).card = 1) :=
  ⟨⟨rfl, rfl, by decide, by decide⟩,
   C2_eat_food rng0 1 gEat 1 1 rfl rfl (by decide) (by decide) (by decide) (by decide)
     (by decide)⟩

/-! ### The ring-buffer invariant (C5) -/

theorem AS_eq : ARRAY_SIZE = 1840 := by decide

theorem AS_pos : 0 < ARRAY_SIZE := by decide

theorem wrap_lt (i : Nat) (h : i < ARRAY_SIZE) :
    (if i + 1 = ARRAY_SIZE then 0 else i + 1) < ARRAY_SIZE := by
  rw [AS_eq] at *
  split <;> omega

theorem wrap_eq_mod (i : Nat) (h : i < ARRAY_SIZE) :
    (if i + 1 = ARRAY_SIZE then 0 else i + 1) = (i + 1) % ARRAY_SIZE := by
  rw [AS_eq] at *
  split <;> omega

theorem mod_lt_AS (a : Nat) : a % ARRAY_SIZE < ARRAY_SIZE :=
  Nat.mod_lt a AS_pos

theorem mod_inj_AS (r a b : Nat) (ha : a < ARRAY_SIZE) (hb : b < ARRAY_SIZE)
    (h : (r + a) % ARRAY_SIZE = (r + b) % ARRAY_SIZE) : a = b := by
  rw [AS_eq] at *
  omega

set_option maxRecDepth 1000000 in
/-- Counterexample to C5 as stated: the literal invariant (occupancy equals
length, every `Body` cell matching exactly one live entry) is not preserved
by `update` — at `gBad` it holds before the update and fails after it (the
previous head, already spuriously in the buffer, is inserted a second time
while its cell carries a single `Body` tag). -/
theorem C5_buffer_invariant_cex :
    gBad.two_player = false ∧ StatedInv gBad ∧ ¬ StatedInv (update rng0 0 gBad) := by
  decide

theorem liveList_grow (body : Nat → Position) (ri ii sz : Nat) (x : Position)
    (hii : ii = (ri + sz) % ARRAY_SIZE) (hsz : sz + 1 ≤ ARRAY_SIZE) :
    (List.range (sz + 1)).map (fun k => setBody body ii x ((ri + k) % ARRAY_SIZE))
      = (List.range sz).map (fun k => body ((ri + k) % ARRAY_SIZE)) ++ [x] := by
  rw [List.range_succ, List.map_append]
  congr 1
  · apply List.map_congr_left
    intro k hk
    rw [List.mem_range] at hk
    have hk1 : k < ARRAY_SIZE := by omega
    have hsz1 : sz < ARRAY_SIZE := by omega
    have hne : (ri + k) % ARRAY_SIZE ≠ ii := by
      intro hx
      rw [hii] at hx
      have := mod_inj_AS ri k sz hk1 hsz1 hx
      omega
    simp [setBody, hne]
  · simp [setBody, hii]

theorem liveList_cons (body : Nat → Position) (ri : Nat) (m : Nat)
    (hri : ri < ARRAY_SIZE) :
    (List.range (m + 1)).map (fun k => body ((ri + k) % ARRAY_SIZE))
      = body ri ::
        ((List.range (m + 1)).map (fun k => body ((ri + k) % ARRAY_SIZE))).drop 1 := by
  rw [List.range_succ_eq_map, List.map_cons, List.drop_succ_cons, List.drop_zero]
  congr 1
  rw [Nat.add_zero, Nat.mod_eq_of_lt hri]

theorem liveList_nongrow (body : Nat → Position) (ri ii : Nat) (x : Position) (m : Nat)
    (hii : ii = (ri + (m + 1)) % ARRAY_SIZE) (hri : ri < ARRAY_SIZE)
    (hsz : m + 1 < ARRAY_SIZE) :
    (List.range (m + 1)).map (fun k => setBody body ii x
        (((if ri + 1 = ARRAY_SIZE then 0 else ri + 1) + k) % ARRAY_SIZE))
      = ((List.range (m + 1)).map (fun k => body ((ri + k) % ARRAY_SIZE))).drop 1
          ++ [x] := by
  conv_lhs => rw [List.range_succ, List.map_append]
  conv_rhs => rw [List.range_succ_eq_map, List.map_cons, List.drop_succ_cons,
    List.drop_zero, List.map_map]
  congr 1
  · apply List.map_congr_left
    intro k hk
    rw [List.mem_range] at hk
    rw [wrap_eq_mod ri hri, Nat.mod_add_mod]
    have h1k : 1 + k < ARRAY_SIZE := by omega
    have hm1 : m + 1 < ARRAY_SIZE := hsz
    have hne : (ri + 1 + k) % ARRAY_SIZE ≠ ii := by
      intro hx
      rw [hii, Nat.add_assoc] at hx
      have := mod_inj_AS ri (1 + k) (m + 1) h1k hm1 hx
      omega
    simp only [setBody, if_neg hne, Function.comp]
    have harg : ri + 1 + k = ri + Nat.succ k := by omega
    rw [harg]
  · rw [List.map_singleton]
    rw [wrap_eq_mod ri hri, Nat.mod_add_mod]
    have harg : ri + 1 + m = ri + (m + 1) := by omega
    rw [harg]
    simp [setBody, hii]

theorem live_length (s : Snake) : (live s).length = s.size := by
  simp [live]

theorem live_zero (s : Snake) (h : s.size = 0) : live s = [] := by
  simp [live, h]

theorem cellAt_mk (g : SnakeGame) (r c : Nat) :
    cellAt g { col := (c : Int), row := (r : Int) } = g.cells r c := by
  simp [cellAt]

theorem mk_legal (r c : Nat) (hr : r < HEIGHT) (hc : c < WIDTH) :
    ({ col := (c : Int), row := (r : Int) } : Position).is_legal = true := by
  simp only [Position.is_legal, decide_eq_true_eq]
  constructor
  · omega
  constructor
  · exact_mod_cast hc
  constructor
  · omega
  · exact_mod_cast hr

theorem legal_mk_eta {p : Position} (h : p.is_legal = true) :
    ({ col := (p.col.toNat : Int), row := (p.row.toNat : Int) } : Position) = p := by
  simp only [Position.is_legal, decide_eq_true_eq] at h
  cases p
  simp only [Position.mk.injEq]
  simp only at h
  omega

/-- Under the strengthened invariant, the snake occupies at most all board
cells except the two fixed walls and its own head, bounding the length well
below the buffer capacity. -/
theorem size_bound (g : SnakeGame) (h : Inv g) : g.snake.size + 3 ≤ ARRAY_SIZE := by
  obtain ⟨h1, h2, h3, h4, h5, h6, h7, h8, h9, h10, h11⟩ := h
  have hnodup : ((live g.snake).map (fun p => (p.row.toNat, p.col.toNat))).Nodup := by
    apply List.Nodup.map_on ?_ h5
    intro x hx y hy hxy
    exact legal_coords_inj (h6 x hx).1 (h6 y hy).1
      (congrArg Prod.fst hxy) (congrArg Prod.snd hxy)
  have hScard : ((live g.snake).map (fun p => (p.row.toNat, p.col.toNat))).toFinset.card
      = g.snake.size := by
    rw [List.toFinset_card_of_nodup hnodup, List.length_map, live_length]
  have hmemS : ∀ rc ∈ ((live g.snake).map (fun p => (p.row.toNat, p.col.toNat))).toFinset,
      g.cells rc.1 rc.2 = Cell.Body ∧ rc.1 < HEIGHT ∧ rc.2 < WIDTH := by
    intro rc hrc
    rw [List.mem_toFinset, List.mem_map] at hrc
    obtain ⟨p, hp, hfp⟩ := hrc
    obtain ⟨hpleg, hpcell⟩ := h6 p hp
    obtain ⟨hb1, hb2⟩ := legal_bounds hpleg
    rw [← hfp]
    exact ⟨hpcell, hb1, hb2⟩
  have hhd : (g.snake.pos.row.toNat, g.snake.pos.col.toNat)
      ∉ ((live g.snake).map (fun p => (p.row.toNat, p.col.toNat))).toFinset := by
    intro hmem
    obtain ⟨hbody, _, _⟩ := hmemS _ hmem
    rcases h9 with h9 | h9 <;> rw [cellAt] at h9 <;>
      simp only at hbody <;> rw [h9] at hbody <;> exact Cell.noConfusion hbody
  have h01 : ((0 : Nat), (1 : Nat)) ∉
      insert (g.snake.pos.row.toNat, g.snake.pos.col.toNat)
        ((live g.snake).map (fun p => (p.row.toNat, p.col.toNat))).toFinset := by
    rw [Finset.mem_insert]
    rintro (hx | hx)
    · have hr : g.snake.pos.row.toNat = 0 := (congrArg Prod.fst hx).symm
      have hc : g.snake.pos.col.toNat = 1 := (congrArg Prod.snd hx).symm
      rcases h9 with h9 | h9 <;> rw [cellAt, hr, hc, h11] at h9 <;> exact Cell.noConfusion h9
    · obtain ⟨hbody, _, _⟩ := hmemS _ hx
      simp only at hbody
      rw [h11] at hbody
      exact Cell.noConfusion hbody
  have h00 : ((0 : Nat), (0 : Nat)) ∉
      insert ((0 : Nat), (1 : Nat))
        (insert (g.snake.pos.row.toNat, g.snake.pos.col.toNat)
          ((live g.snake).map (fun p => (p.row.toNat, p.col.toNat))).toFinset) := by
    rw [Finset.mem_insert, Finset.mem_insert]
    rintro (hx | hx | hx)
    · exact absurd (congrArg Prod.snd hx) (by decide)
    · have hr : g.snake.pos.row.toNat = 0 := (congrArg Prod.fst hx).symm
      have hc : g.snake.pos.col.toNat = 0 := (congrArg Prod.snd hx).symm
      rcases h9 with h9 | h9 <;> rw [cellAt, hr, hc, h10] at h9 <;> exact Cell.noConfusion h9
    · obtain ⟨hbody, _, _⟩ := hmemS _ hx
      simp only at hbody
      rw [h10] at hbody
      exact Cell.noConfusion hbody
  have hsub : insert ((0 : Nat), (0 : Nat))
      (insert ((0 : Nat), (1 : Nat))
        (insert (g.snake.pos.row.toNat, g.snake.pos.col.toNat)
          ((live g.snake).map (fun p => (p.row.toNat, p.col.toNat))).toFinset))
      ⊆ Finset.range HEIGHT ×ˢ Finset.range WIDTH := by
    intro rc hrc
    rw [Finset.mem_insert, Finset.mem_insert, Finset.mem_insert] at hrc
    rw [Finset.mem_product, Finset.mem_range, Finset.mem_range]
    rcases hrc with hx | hx | hx | hx
    · rw [hx]; exact ⟨by decide, by decide⟩
    · rw [hx]; exact ⟨by decide, by decide⟩
    · rw [hx]
      obtain ⟨hb1, hb2⟩ := legal_bounds h8
      exact ⟨hb1, hb2⟩
    · obtain ⟨_, hb1, hb2⟩ := hmemS _ hx
      exact ⟨hb1, hb2⟩
  have hcards := Finset.card_le_card hsub
  rw [Finset.card_insert_of_not_mem h00, Finset.card_insert_of_not_mem h01,
      Finset.card_insert_of_not_mem hhd, hScard, Finset.card_product,
      Finset.card_range, Finset.card_range] at hcards
  have hHW : HEIGHT * WIDTH = ARRAY_SIZE := by decide
  omega

/-- Moving onto an `Empty` cell preserves the strengthened invariant
(positive length). -/
theorem Inv_move_empty_succ (rng : Nat → Nat → Nat) (fuel : Nat) (g : SnakeGame)
    (d1 : Dir) (n1 : Position)
    (hn1 : n1 = g.snake.pos.neighbor d1)
    (hleg : n1.is_legal = true) (hcell : cellAt g n1 = Cell.Empty)
    (m : Nat) (hszm : g.snake.size = m + 1) (h : Inv g) :
    Inv (move_to rng fuel { g with snake := { g.snake with dir := d1 } } n1 d1) := by
  obtain ⟨h1, h2, h3, h4, h5, h6, h7, h8, h9, h10, h11⟩ := h
  have hne1 : ¬(n1.row.toNat = g.snake.pos.row.toNat ∧
      n1.col.toNat = g.snake.pos.col.toNat) :=
    legal_coords_ne hleg h8 (hn1 ▸ neighbor_ne g.snake.pos d1)
  have hcell' : g.cells n1.row.toNat n1.col.toNat = Cell.Empty := hcell
  have hmk : setCell g.cells g.snake.pos.row.toNat g.snake.pos.col.toNat Cell.Body
      n1.row.toNat n1.col.toNat ≠ Cell.Food := by
    rw [setCell_other _ _ _ _ _ _ hne1, hcell']
    exact fun hx => Cell.noConfusion hx
  have hcurr_live : g.snake.pos ∉ live g.snake := by
    intro hx
    rcases h9 with h9 | h9 <;> rw [(h6 _ hx).2] at h9 <;> exact Cell.noConfusion h9
  have hlg : live g.snake = (List.range (m + 1)).map
      (fun k => g.snake.body ((g.snake.remove_index + k) % ARRAY_SIZE)) := by
    unfold live
    rw [hszm]
  have hcons : live g.snake
      = g.snake.body g.snake.remove_index :: (live g.snake).drop 1 := by
    rw [hlg]
    exact liveList_cons g.snake.body g.snake.remove_index m h2
  have ht0mem : g.snake.body g.snake.remove_index ∈ live g.snake := by
    rw [hcons]
    exact List.mem_cons_self _ _
  have ht0legal : (g.snake.body g.snake.remove_index).is_legal = true := (h6 _ ht0mem).1
  have ht0cell : cellAt g (g.snake.body g.snake.remove_index) = Cell.Body :=
    (h6 _ ht0mem).2
  have ht0ne_curr : g.snake.body g.snake.remove_index ≠ g.snake.pos := by
    intro hx
    have hB : cellAt g g.snake.pos = Cell.Body := hx ▸ ht0cell
    rcases h9 with h9 | h9 <;> rw [h9] at hB <;> exact Cell.noConfusion hB
  have hrine : g.snake.remove_index ≠ g.snake.insert_index := by
    intro hq
    have hsz' : m + 1 < ARRAY_SIZE := hszm ▸ h3
    have he0 : g.snake.remove_index
        = (g.snake.remove_index + (m + 1)) % ARRAY_SIZE := by
      conv_lhs => rw [hq, h4, hszm]
    have he : (g.snake.remove_index + 0) % ARRAY_SIZE
        = (g.snake.remove_index + (m + 1)) % ARRAY_SIZE := by
      rw [Nat.add_zero, Nat.mod_eq_of_lt h2]
      exact he0
    have := mod_inj_AS g.snake.remove_index 0 (m + 1) AS_pos hsz' he
    omega
  have hclr : setBody g.snake.body g.snake.insert_index g.snake.pos
      g.snake.remove_index = g.snake.body g.snake.remove_index := by
    simp [setBody, hrine]
  have ht0nodrop : g.snake.body g.snake.remove_index ∉ (live g.snake).drop 1 := by
    have h5' := h5
    rw [hcons] at h5'
    exact (List.nodup_cons.mp h5').1
  rw [move_to_nonfood rng fuel { g with snake := { g.snake with dir := d1 } } n1 d1 hmk,
      update_snake_body_nongrow]
  have hlv : live (Snake.mk n1 d1 g.snake.size
      (setBody g.snake.body g.snake.insert_index g.snake.pos)
      (if g.snake.insert_index + 1 = ARRAY_SIZE then 0 else g.snake.insert_index + 1)
      (if g.snake.remove_index + 1 = ARRAY_SIZE then 0 else g.snake.remove_index + 1))
      = (live g.snake).drop 1 ++ [g.snake.pos] := by
    show (List.range g.snake.size).map
        (fun k => setBody g.snake.body g.snake.insert_index g.snake.pos
          (((if g.snake.remove_index + 1 = ARRAY_SIZE then 0
            else g.snake.remove_index + 1) + k) % ARRAY_SIZE))
      = (live g.snake).drop 1 ++ [g.snake.pos]
    rw [hszm, hlg]
    exact liveList_nongrow g.snake.body g.snake.remove_index g.snake.insert_index
      g.snake.pos m (by rw [← hszm]; exact h4) h2 (hszm ▸ h3)
  have c1 : (if g.snake.insert_index + 1 = ARRAY_SIZE then 0
      else g.snake.insert_index + 1) < ARRAY_SIZE := wrap_lt _ h1
  have c2 : (if g.snake.remove_index + 1 = ARRAY_SIZE then 0
      else g.snake.remove_index + 1) < ARRAY_SIZE := wrap_lt _ h2
  have c4 : (if g.snake.insert_index + 1 = ARRAY_SIZE then 0
        else g.snake.insert_index + 1)
      = ((if g.snake.remove_index + 1 = ARRAY_SIZE then 0
        else g.snake.remove_index + 1) + g.snake.size) % ARRAY_SIZE := by
    rw [wrap_eq_mod _ h1, wrap_eq_mod _ h2, Nat.mod_add_mod, h4, Nat.mod_add_mod]
    have harg : g.snake.remove_index + g.snake.size + 1
        = g.snake.remove_index + 1 + g.snake.size := by omega
    rw [harg]
  have c5 : (live (Snake.mk n1 d1 g.snake.size
      (setBody g.snake.body g.snake.insert_index g.snake.pos)
      (if g.snake.insert_index + 1 = ARRAY_SIZE then 0 else g.snake.insert_index + 1)
      (if g.snake.remove_index + 1 = ARRAY_SIZE then 0
        else g.snake.remove_index + 1))).Nodup := by
    rw [hlv, List.nodup_append]
    refine ⟨List.Nodup.sublist (List.drop_sublist _ _) h5, List.nodup_singleton _, ?_⟩
    intro a ha hb
    rw [List.mem_singleton] at hb
    rw [hb] at ha
    exact hcurr_live (List.mem_of_mem_drop ha)
  have c6 : ∀ p ∈ live (Snake.mk n1 d1 g.snake.size
      (setBody g.snake.body g.snake.insert_index g.snake.pos)
      (if g.snake.insert_index + 1 = ARRAY_SIZE then 0 else g.snake.insert_index + 1)
      (if g.snake.remove_index + 1 = ARRAY_SIZE then 0
        else g.snake.remove_index + 1)),
      p.is_legal = true ∧
      setCell (setCell g.cells g.snake.pos.row.toNat g.snake.pos.col.toNat Cell.Body)
        (setBody g.snake.body g.snake.insert_index g.snake.pos
          g.snake.remove_index).row.toNat
        (setBody g.snake.body g.snake.insert_index g.snake.pos
          g.snake.remove_index).col.toNat Cell.Empty
        p.row.toNat p.col.toNat = Cell.Body := by
    intro p hp
    rw [hlv] at hp
    rcases List.mem_append.mp hp with hp1 | hp2
    · have hpl : p ∈ live g.snake := List.mem_of_mem_drop hp1
      have hpleg := (h6 p hpl).1
      have hpcell := (h6 p hpl).2
      have hpne_t0 : p ≠ g.snake.body g.snake.remove_index := by
        intro hx
        rw [hx] at hp1
        exact ht0nodrop hp1
      have hpne_curr : p ≠ g.snake.pos := by
        intro hx
        rw [hx] at hpl
        exact hcurr_live hpl
      refine ⟨hpleg, ?_⟩
      rw [hclr, setCell_other _ _ _ _ _ _ (legal_coords_ne hpleg ht0legal hpne_t0),
          setCell_other _ _ _ _ _ _ (legal_coords_ne hpleg h8 hpne_curr)]
      exact hpcell
    · rw [List.mem_singleton] at hp2
      rw [hp2]
      refine ⟨h8, ?_⟩
      rw [hclr,
          setCell_other _ _ _ _ _ _
            (legal_coords_ne h8 ht0legal (fun hx => ht0ne_curr hx.symm)),
          setCell_same]
  have c7 : ∀ r < HEIGHT, ∀ c < WIDTH,
      setCell (setCell g.cells g.snake.pos.row.toNat g.snake.pos.col.toNat Cell.Body)
        (setBody g.snake.body g.snake.insert_index g.snake.pos
          g.snake.remove_index).row.toNat
        (setBody g.snake.body g.snake.insert_index g.snake.pos
          g.snake.remove_index).col.toNat Cell.Empty r c = Cell.Body →
      ({ col := (c : Int), row := (r : Int) } : Position) ∈
        live (Snake.mk n1 d1 g.snake.size
          (setBody g.snake.body g.snake.insert_index g.snake.pos)
          (if g.snake.insert_index + 1 = ARRAY_SIZE then 0
            else g.snake.insert_index + 1)
          (if g.snake.remove_index + 1 = ARRAY_SIZE then 0
            else g.snake.remove_index + 1)) := by
    intro r hr c hc hbody
    rw [hclr] at hbody
    rw [hlv]
    by_cases hx0 : r = (g.snake.body g.snake.remove_index).row.toNat ∧
        c = (g.snake.body g.snake.remove_index).col.toNat
    · rw [hx0.1, hx0.2, setCell_same] at hbody
      exact absurd hbody (fun hq => Cell.noConfusion hq)
    · rw [setCell_other _ _ _ _ _ _ hx0] at hbody
      by_cases hx1 : r = g.snake.pos.row.toNat ∧ c = g.snake.pos.col.toNat
      · apply List.mem_append.mpr
        right
        rw [List.mem_singleton, hx1.1, hx1.2]
        exact legal_mk_eta h8
      · rw [setCell_other _ _ _ _ _ _ hx1] at hbody
        have hmem := h7 r hr c hc hbody
        rw [hcons] at hmem
        rcases List.mem_cons.mp hmem with hq | hq
        · exfalso
          apply hx0
          have hr0 : ({ col := (c : Int), row := (r : Int) } : Position).row.toNat
              = (g.snake.body g.snake.remove_index).row.toNat := by rw [hq]
          have hc0 : ({ col := (c : Int), row := (r : Int) } : Position).col.toNat
              = (g.snake.body g.snake.remove_index).col.toNat := by rw [hq]
          simp only [Int.toNat_natCast] at hr0 hc0
          exact ⟨hr0, hc0⟩
        · exact List.mem_append.mpr (Or.inl hq)
  have hn1ne_t0 : ¬(n1.row.toNat = (g.snake.body g.snake.remove_index).row.toNat ∧
      n1.col.toNat = (g.snake.body g.snake.remove_index).col.toNat) := by
    apply legal_coords_ne hleg ht0legal
    intro hx
    have hB : cellAt g n1 = Cell.Body := by rw [hx]; exact ht0cell
    rw [hcell] at hB
    exact Cell.noConfusion hB
  have c9 : setCell (setCell g.cells g.snake.pos.row.toNat g.snake.pos.col.toNat
        Cell.Body)
      (setBody g.snake.body g.snake.insert_index g.snake.pos
        g.snake.remove_index).row.toNat
      (setBody g.snake.body g.snake.insert_index g.snake.pos
        g.snake.remove_index).col.toNat Cell.Empty
      n1.row.toNat n1.col.toNat = Cell.Empty ∨
      setCell (setCell g.cells g.snake.pos.row.toNat g.snake.pos.col.toNat Cell.Body)
      (setBody g.snake.body g.snake.insert_index g.snake.pos
        g.snake.remove_index).row.toNat
      (setBody g.snake.body g.snake.insert_index g.snake.pos
        g.snake.remove_index).col.toNat Cell.Empty
      n1.row.toNat n1.col.toNat = Cell.Food := by
    left
    rw [hclr, setCell_other _ _ _ _ _ _ hn1ne_t0, setCell_other _ _ _ _ _ _ hne1]
    exact hcell'
  have hcurrW : ¬ (g.cells g.snake.pos.row.toNat g.snake.pos.col.toNat = Cell.Wall) := by
    rcases h9 with h9 | h9 <;> rw [cellAt] at h9 <;> rw [h9] <;>
      exact fun hx => Cell.noConfusion hx
  have ht0W : ¬ (g.cells (g.snake.body g.snake.remove_index).row.toNat
      (g.snake.body g.snake.remove_index).col.toNat = Cell.Wall) := by
    rw [cellAt] at ht0cell
    rw [ht0cell]
    exact fun hx => Cell.noConfusion hx
  have hne00c : ¬((0 : Nat) = g.snake.pos.row.toNat ∧
      (0 : Nat) = g.snake.pos.col.toNat) := by
    rintro ⟨hx1, hx2⟩
    rw [← hx1, ← hx2] at hcurrW
    exact hcurrW h10
  have hne01c : ¬((0 : Nat) = g.snake.pos.row.toNat ∧
      (1 : Nat) = g.snake.pos.col.toNat) := by
    rintro ⟨hx1, hx2⟩
    rw [← hx1, ← hx2] at hcurrW
    exact hcurrW h11
  have hne00t : ¬((0 : Nat) = (g.snake.body g.snake.remove_index).row.toNat ∧
      (0 : Nat) = (g.snake.body g.snake.remove_index).col.toNat) := by
    rintro ⟨hx1, hx2⟩
    rw [← hx1, ← hx2] at ht0W
    exact ht0W h10
  have hne01t : ¬((0 : Nat) = (g.snake.body g.snake.remove_index).row.toNat ∧
      (1 : Nat) = (g.snake.body g.snake.remove_index).col.toNat) := by
    rintro ⟨hx1, hx2⟩
    rw [← hx1, ← hx2] at ht0W
    exact ht0W h11
  have c10 : setCell (setCell g.cells g.snake.pos.row.toNat g.snake.pos.col.toNat
        Cell.Body)
      (setBody g.snake.body g.snake.insert_index g.snake.pos
        g.snake.remove_index).row.toNat
      (setBody g.snake.body g.snake.insert_index g.snake.pos
        g.snake.remove_index).col.toNat Cell.Empty 0 0 = Cell.Wall := by
    rw [hclr, setCell_other _ _ _ _ _ _ hne00t, setCell_other _ _ _ _ _ _ hne00c]
    exact h10
  have c11 : setCell (setCell g.cells g.snake.pos.row.toNat g.snake.pos.col.toNat
        Cell.Body)
      (setBody g.snake.body g.snake.insert_index g.snake.pos
        g.snake.remove_index).row.toNat
      (setBody g.snake.body g.snake.insert_index g.snake.pos
        g.snake.remove_index).col.toNat Cell.Empty 0 1 = Cell.Wall := by
    rw [hclr, setCell_other _ _ _ _ _ _ hne01t, setCell_other _ _ _ _ _ _ hne01c]
    exact h11
  exact ⟨c1, c2, h3, c4, c5, c6, c7, hleg, c9, c10, c11⟩

/-- Moving onto an `Empty` cell preserves the strengthened invariant. -/
theorem Inv_move_empty (rng : Nat → Nat → Nat) (fuel : Nat) (g : SnakeGame)
    (d1 : Dir) (n1 : Position)
    (hn1 : n1 = g.snake.pos.neighbor d1)
    (h : Inv g) (hleg : n1.is_legal = true) (hcell : cellAt g n1 = Cell.Empty) :
    Inv (move_to rng fuel { g with snake := { g.snake with dir := d1 } } n1 d1) := by
  obtain ⟨h1, h2, h3, h4, h5, h6, h7, h8, h9, h10, h11⟩ := h
  have hne1 : ¬(n1.row.toNat = g.snake.pos.row.toNat ∧
      n1.col.toNat = g.snake.pos.col.toNat) :=
    legal_coords_ne hleg h8 (hn1 ▸ neighbor_ne g.snake.pos d1)
  have hcell' : g.cells n1.row.toNat n1.col.toNat = Cell.Empty := hcell
  have hmk : setCell g.cells g.snake.pos.row.toNat g.snake.pos.col.toNat Cell.Body
      n1.row.toNat n1.col.toNat ≠ Cell.Food := by
    rw [setCell_other _ _ _ _ _ _ hne1, hcell']
    exact fun hx => Cell.noConfusion hx
  have hcurr_live : g.snake.pos ∉ live g.snake := by
    intro hx
    rcases h9 with h9 | h9 <;> rw [(h6 _ hx).2] at h9 <;> exact Cell.noConfusion h9
  cases hsz : g.snake.size with
  | zero =>
    rw [move_to_nonfood rng fuel { g with snake := { g.snake with dir := d1 } } n1 d1 hmk,
        update_snake_body_nongrow]
    -- the freshly spawned snake: insert and remove cursors coincide
    have hiiri : g.snake.insert_index = g.snake.remove_index := by
      rw [h4, hsz, Nat.add_zero, Nat.mod_eq_of_lt h2]
    have hclr : setBody g.snake.body g.snake.insert_index g.snake.pos
        g.snake.remove_index = g.snake.pos := by
      simp [setBody, hiiri]
    have hlv0 : live (Snake.mk n1 d1 g.snake.size
        (setBody g.snake.body g.snake.insert_index g.snake.pos)
        (if g.snake.insert_index + 1 = ARRAY_SIZE then 0 else g.snake.insert_index + 1)
        (if g.snake.remove_index + 1 = ARRAY_SIZE then 0 else g.snake.remove_index + 1))
        = [] := live_zero _ hsz
    have hlive_g : live g.snake = [] := live_zero _ hsz
    have c1 : (if g.snake.insert_index + 1 = ARRAY_SIZE then 0
        else g.snake.insert_index + 1) < ARRAY_SIZE := wrap_lt _ h1
    have c2 : (if g.snake.remove_index + 1 = ARRAY_SIZE then 0
        else g.snake.remove_index + 1) < ARRAY_SIZE := wrap_lt _ h2
    have c4 : (if g.snake.insert_index + 1 = ARRAY_SIZE then 0
          else g.snake.insert_index + 1)
        = ((if g.snake.remove_index + 1 = ARRAY_SIZE then 0
          else g.snake.remove_index + 1) + g.snake.size) % ARRAY_SIZE := by
      rw [hsz, hiiri]
      have hlt := wrap_lt g.snake.remove_index h2
      rw [AS_eq] at hlt ⊢
      omega
    have c5 : (live (Snake.mk n1 d1 g.snake.size
        (setBody g.snake.body g.snake.insert_index g.snake.pos)
        (if g.snake.insert_index + 1 = ARRAY_SIZE then 0 else g.snake.insert_index + 1)
        (if g.snake.remove_index + 1 = ARRAY_SIZE then 0
          else g.snake.remove_index + 1))).Nodup := by
      rw [hlv0]; exact List.nodup_nil
    have c6 : ∀ p ∈ live (Snake.mk n1 d1 g.snake.size
        (setBody g.snake.body g.snake.insert_index g.snake.pos)
        (if g.snake.insert_index + 1 = ARRAY_SIZE then 0 else g.snake.insert_index + 1)
        (if g.snake.remove_index + 1 = ARRAY_SIZE then 0
          else g.snake.remove_index + 1)),
        p.is_legal = true ∧
        setCell (setCell g.cells g.snake.pos.row.toNat g.snake.pos.col.toNat Cell.Body)
          (setBody g.snake.body g.snake.insert_index g.snake.pos
            g.snake.remove_index).row.toNat
          (setBody g.snake.body g.snake.insert_index g.snake.pos
            g.snake.remove_index).col.toNat Cell.Empty
          p.row.toNat p.col.toNat = Cell.Body := by
      intro p hp
      rw [hlv0] at hp
      exact absurd hp (List.not_mem_nil p)
    have c7 : ∀ r < HEIGHT, ∀ c < WIDTH,
        setCell (setCell g.cells g.snake.pos.row.toNat g.snake.pos.col.toNat Cell.Body)
          (setBody g.snake.body g.snake.insert_index g.snake.pos
            g.snake.remove_index).row.toNat
          (setBody g.snake.body g.snake.insert_index g.snake.pos
            g.snake.remove_index).col.toNat Cell.Empty r c = Cell.Body →
        ({ col := (c : Int), row := (r : Int) } : Position) ∈
          live (Snake.mk n1 d1 g.snake.size
            (setBody g.snake.body g.snake.insert_index g.snake.pos)
            (if g.snake.insert_index + 1 = ARRAY_SIZE then 0
              else g.snake.insert_index + 1)
            (if g.snake.remove_index + 1 = ARRAY_SIZE then 0
              else g.snake.remove_index + 1)) := by
      intro r hr c hc hbody
      rw [hclr] at hbody
      exfalso
      by_cases hx : r = g.snake.pos.row.toNat ∧ c = g.snake.pos.col.toNat
      · rw [hx.1, hx.2, setCell_same] at hbody
        exact Cell.noConfusion hbody
      · rw [setCell_other _ _ _ _ _ _ hx, setCell_other _ _ _ _ _ _ hx] at hbody
        have := h7 r hr c hc hbody
        rw [hlive_g] at this
        exact absurd this (List.not_mem_nil _)
    have c9 : setCell (setCell g.cells g.snake.pos.row.toNat g.snake.pos.col.toNat
          Cell.Body)
        (setBody g.snake.body g.snake.insert_index g.snake.pos
          g.snake.remove_index).row.toNat
        (setBody g.snake.body g.snake.insert_index g.snake.pos
          g.snake.remove_index).col.toNat Cell.Empty
        n1.row.toNat n1.col.toNat = Cell.Empty ∨
        setCell (setCell g.cells g.snake.pos.row.toNat g.snake.pos.col.toNat Cell.Body)
        (setBody g.snake.body g.snake.insert_index g.snake.pos
          g.snake.remove_index).row.toNat
        (setBody g.snake.body g.snake.insert_index g.snake.pos
          g.snake.remove_index).col.toNat Cell.Empty
        n1.row.toNat n1.col.toNat = Cell.Food := by
      left
      rw [hclr]
      by_cases hx : n1.row.toNat = g.snake.pos.row.toNat ∧
          n1.col.toNat = g.snake.pos.col.toNat
      · exact absurd hx hne1
      · rw [setCell_other _ _ _ _ _ _ hx, setCell_other _ _ _ _ _ _ hx]
        exact hcell'
    have hcurrW : ¬ (g.cells g.snake.pos.row.toNat g.snake.pos.col.toNat = Cell.Wall) := by
      rcases h9 with h9 | h9 <;> rw [cellAt] at h9 <;> rw [h9] <;>
        exact fun hx => Cell.noConfusion hx
    have hne00 : ¬((0 : Nat) = g.snake.pos.row.toNat ∧ (0 : Nat) = g.snake.pos.col.toNat) := by
      rintro ⟨hx1, hx2⟩
      rw [← hx1, ← hx2] at hcurrW
      exact hcurrW h10
    have hne01 : ¬((0 : Nat) = g.snake.pos.row.toNat ∧ (1 : Nat) = g.snake.pos.col.toNat) := by
      rintro ⟨hx1, hx2⟩
      rw [← hx1, ← hx2] at hcurrW
      exact hcurrW h11
    have c10 : setCell (setCell g.cells g.snake.pos.row.toNat g.snake.pos.col.toNat
          Cell.Body)
        (setBody g.snake.body g.snake.insert_index g.snake.pos
          g.snake.remove_index).row.toNat
        (setBody g.snake.body g.snake.insert_index g.snake.pos
          g.snake.remove_index).col.toNat Cell.Empty 0 0 = Cell.Wall := by
      rw [hclr, setCell_other _ _ _ _ _ _ hne00, setCell_other _ _ _ _ _ _ hne00]
      exact h10
    have c11 : setCell (setCell g.cells g.snake.pos.row.toNat g.snake.pos.col.toNat
          Cell.Body)
        (setBody g.snake.body g.snake.insert_index g.snake.pos
          g.snake.remove_index).row.toNat
        (setBody g.snake.body g.snake.insert_index g.snake.pos
          g.snake.remove_index).col.toNat Cell.Empty 0 1 = Cell.Wall := by
      rw [hclr, setCell_other _ _ _ _ _ _ hne01, setCell_other _ _ _ _ _ _ hne01]
      exact h11
    exact ⟨c1, c2, h3, c4, c5, c6, c7, hleg, c9, c10, c11⟩
  | succ m =>
    exact Inv_move_empty_succ rng fuel g d1 n1 hn1 hleg hcell m hsz
      ⟨h1, h2, h3, h4, h5, h6, h7, h8, h9, h10, h11⟩

/-- A failed (fuel-exhausted) food search leaves the state unchanged. -/
theorem new_food_none (rng : Nat → Nat → Nat) (fuel : Nat) (g : SnakeGame)
    (hf : findFoodCell g.cells (rng g.total_ticks) 0 fuel = none) :
    new_food rng fuel g = g := by
  unfold new_food
  rw [hf]

/-- Core of the growing-advance case: if the final grid `F` tags the vacated
head and all previous live entries `Body`, tags no other cell `Body` beyond
the previous ones, keeps the new head on `Empty`/`Food` and keeps the two
fixed walls, then the grown state satisfies the invariant. -/
theorem Inv_grow_core (g : SnakeGame) (d1 : Dir) (n1 : Position) (F : Nat → Nat → Cell)
    (h : Inv g) (hn1 : n1 = g.snake.pos.neighbor d1) (hleg : n1.is_legal = true)
    (hbound : g.snake.size + 3 ≤ ARRAY_SIZE)
    (hF_curr : F g.snake.pos.row.toNat g.snake.pos.col.toNat = Cell.Body)
    (hF_live : ∀ p ∈ live g.snake, F p.row.toNat p.col.toNat = Cell.Body)
    (hF_body : ∀ r < HEIGHT, ∀ c < WIDTH, F r c = Cell.Body →
        (r = g.snake.pos.row.toNat ∧ c = g.snake.pos.col.toNat) ∨
        g.cells r c = Cell.Body)
    (hF_head : F n1.row.toNat n1.col.toNat = Cell.Empty ∨
        F n1.row.toNat n1.col.toNat = Cell.Food)
    (hF_w0 : F 0 0 = Cell.Wall) (hF_w1 : F 0 1 = Cell.Wall) :
    Inv (SnakeGame.mk F
      (Snake.mk n1 d1 (g.snake.size + 1)
        (setBody g.snake.body g.snake.insert_index g.snake.pos)
        (if g.snake.insert_index + 1 = ARRAY_SIZE then 0 else g.snake.insert_index + 1)
        g.snake.remove_index)
      g.snake2 g.status g.last_key g.last_key2 g.countdown g.total_ticks
      g.two_player) := by
  obtain ⟨h1, h2, h3, h4, h5, h6, h7, h8, h9, h10, h11⟩ := h
  have hcurr_live : g.snake.pos ∉ live g.snake := by
    intro hx
    rcases h9 with h9 | h9 <;> rw [(h6 _ hx).2] at h9 <;> exact Cell.noConfusion h9
  have hlv : live (Snake.mk n1 d1 (g.snake.size + 1)
      (setBody g.snake.body g.snake.insert_index g.snake.pos)
      (if g.snake.insert_index + 1 = ARRAY_SIZE then 0 else g.snake.insert_index + 1)
      g.snake.remove_index)
      = live g.snake ++ [g.snake.pos] := by
    show (List.range (g.snake.size + 1)).map
        (fun k => setBody g.snake.body g.snake.insert_index g.snake.pos
          ((g.snake.remove_index + k) % ARRAY_SIZE))
      = live g.snake ++ [g.snake.pos]
    exact liveList_grow g.snake.body g.snake.remove_index g.snake.insert_index
      g.snake.size g.snake.pos h4 (by omega)
  have c1 : (if g.snake.insert_index + 1 = ARRAY_SIZE then 0
      else g.snake.insert_index + 1) < ARRAY_SIZE := wrap_lt _ h1
  have c3 : g.snake.size + 1 < ARRAY_SIZE := by omega
  have c4 : (if g.snake.insert_index + 1 = ARRAY_SIZE then 0
        else g.snake.insert_index + 1)
      = (g.snake.remove_index + (g.snake.size + 1)) % ARRAY_SIZE := by
    rw [wrap_eq_mod _ h1, h4, Nat.mod_add_mod]
    have harg : g.snake.remove_index + g.snake.size + 1
        = g.snake.remove_index + (g.snake.size + 1) := by omega
    rw [harg]
  have c5 : (live (Snake.mk n1 d1 (g.snake.size + 1)
      (setBody g.snake.body g.snake.insert_index g.snake.pos)
      (if g.snake.insert_index + 1 = ARRAY_SIZE then 0 else g.snake.insert_index + 1)
      g.snake.remove_index)).Nodup := by
    rw [hlv, List.nodup_append]
    refine ⟨h5, List.nodup_singleton _, ?_⟩
    intro a ha hb
    rw [List.mem_singleton] at hb
    rw [hb] at ha
    exact hcurr_live ha
  have c6 : ∀ p ∈ live (Snake.mk n1 d1 (g.snake.size + 1)
      (setBody g.snake.body g.snake.insert_index g.snake.pos)
      (if g.snake.insert_index + 1 = ARRAY_SIZE then 0 else g.snake.insert_index + 1)
      g.snake.remove_index),
      p.is_legal = true ∧ F p.row.toNat p.col.toNat = Cell.Body := by
    intro p hp
    rw [hlv] at hp
    rcases List.mem_append.mp hp with hp1 | hp2
    · exact ⟨(h6 p hp1).1, hF_live p hp1⟩
    · rw [List.mem_singleton] at hp2
      rw [hp2]
      exact ⟨h8, hF_curr⟩
  have c7 : ∀ r < HEIGHT, ∀ c < WIDTH, F r c = Cell.Body →
      ({ col := (c : Int), row := (r : Int) } : Position) ∈
        live (Snake.mk n1 d1 (g.snake.size + 1)
          (setBody g.snake.body g.snake.insert_index g.snake.pos)
          (if g.snake.insert_index + 1 = ARRAY_SIZE then 0
            else g.snake.insert_index + 1)
          g.snake.remove_index) := by
    intro r hr c hc hb
    rw [hlv]
    rcases hF_body r hr c hc hb with hcur | hbody
    · apply List.mem_append.mpr
      right
      rw [List.mem_singleton, hcur.1, hcur.2]
      exact legal_mk_eta h8
    · exact List.mem_append.mpr (Or.inl (h7 r hr c hc hbody))
  exact ⟨c1, h2, c3, c4, c5, c6, c7, hleg, hF_head, hF_w0, hF_w1⟩

/-- Moving onto a `Food` cell preserves the strengthened invariant. -/
theorem Inv_move_food (rng : Nat → Nat → Nat) (fuel : Nat) (g : SnakeGame)
    (d1 : Dir) (n1 : Position)
    (hn1 : n1 = g.snake.pos.neighbor d1)
    (h : Inv g) (hleg : n1.is_legal = true) (hcell : cellAt g n1 = Cell.Food) :
    Inv (move_to rng fuel { g with snake := { g.snake with dir := d1 } } n1 d1) := by
  have hbound := size_bound g h
  obtain ⟨h1, h2, h3, h4, h5, h6, h7, h8, h9, h10, h11⟩ := h
  have hne1 : ¬(n1.row.toNat = g.snake.pos.row.toNat ∧
      n1.col.toNat = g.snake.pos.col.toNat) :=
    legal_coords_ne hleg h8 (hn1 ▸ neighbor_ne g.snake.pos d1)
  have hne1' : ¬(g.snake.pos.row.toNat = n1.row.toNat ∧
      g.snake.pos.col.toNat = n1.col.toNat) := by
    rintro ⟨hx1, hx2⟩
    exact hne1 ⟨hx1.symm, hx2.symm⟩
  have hcell' : g.cells n1.row.toNat n1.col.toNat = Cell.Food := hcell
  have hmk : setCell g.cells g.snake.pos.row.toNat g.snake.pos.col.toNat Cell.Body
      n1.row.toNat n1.col.toNat = Cell.Food := by
    rw [setCell_other _ _ _ _ _ _ hne1]
    exact hcell'
  -- facts about the post-eat grid
  have hC_curr : setCell (setCell g.cells g.snake.pos.row.toNat g.snake.pos.col.toNat
        Cell.Body) n1.row.toNat n1.col.toNat Cell.Empty
      g.snake.pos.row.toNat g.snake.pos.col.toNat = Cell.Body := by
    rw [setCell_other _ _ _ _ _ _ hne1', setCell_same]
  have hC_live : ∀ p ∈ live g.snake,
      setCell (setCell g.cells g.snake.pos.row.toNat g.snake.pos.col.toNat Cell.Body)
        n1.row.toNat n1.col.toNat Cell.Empty p.row.toNat p.col.toNat = Cell.Body := by
    intro p hp
    have hpleg := (h6 p hp).1
    have hpcell := (h6 p hp).2
    have hpne_n1 : p ≠ n1 := by
      intro hx
      rw [hx, hcell] at hpcell
      exact Cell.noConfusion hpcell
    have hpne_curr : p ≠ g.snake.pos := by
      intro hx
      rcases h9 with h9 | h9 <;> rw [hx, h9] at hpcell <;> exact Cell.noConfusion hpcell
    rw [setCell_other _ _ _ _ _ _ (legal_coords_ne hpleg hleg hpne_n1),
        setCell_other _ _ _ _ _ _ (legal_coords_ne hpleg h8 hpne_curr)]
    exact hpcell
  have hC_body : ∀ r < HEIGHT, ∀ c < WIDTH,
      setCell (setCell g.cells g.snake.pos.row.toNat g.snake.pos.col.toNat Cell.Body)
        n1.row.toNat n1.col.toNat Cell.Empty r c = Cell.Body →
      (r = g.snake.pos.row.toNat ∧ c = g.snake.pos.col.toNat) ∨
      g.cells r c = Cell.Body := by
    intro r hr c hc hb
    by_cases hx0 : r = n1.row.toNat ∧ c = n1.col.toNat
    · rw [hx0.1, hx0.2, setCell_same] at hb
      exact absurd hb (fun hq => Cell.noConfusion hq)
    · rw [setCell_other _ _ _ _ _ _ hx0] at hb
      by_cases hx1 : r = g.snake.pos.row.toNat ∧ c = g.snake.pos.col.toNat
      · exact Or.inl hx1
      · rw [setCell_other _ _ _ _ _ _ hx1] at hb
        exact Or.inr hb
  have hC_head : setCell (setCell g.cells g.snake.pos.row.toNat g.snake.pos.col.toNat
        Cell.Body) n1.row.toNat n1.col.toNat Cell.Empty
      n1.row.toNat n1.col.toNat = Cell.Empty := setCell_same _ _ _ _
  have hcurrW : ¬ (g.cells g.snake.pos.row.toNat g.snake.pos.col.toNat = Cell.Wall) := by
    rcases h9 with h9 | h9 <;> rw [cellAt] at h9 <;> rw [h9] <;>
      exact fun hx => Cell.noConfusion hx
  have hn1W : ¬ (g.cells n1.row.toNat n1.col.toNat = Cell.Wall) := by
    rw [hcell']
    exact fun hx => Cell.noConfusion hx
  have hne00c : ¬((0 : Nat) = g.snake.pos.row.toNat ∧
      (0 : Nat) = g.snake.pos.col.toNat) := by
    rintro ⟨hx1, hx2⟩
    rw [← hx1, ← hx2] at hcurrW
    exact hcurrW h10
  have hne01c : ¬((0 : Nat) = g.snake.pos.row.toNat ∧
      (1 : Nat) = g.snake.pos.col.toNat) := by
    rintro ⟨hx1, hx2⟩
    rw [← hx1, ← hx2] at hcurrW
    exact hcurrW h11
  have hne00n : ¬((0 : Nat) = n1.row.toNat ∧ (0 : Nat) = n1.col.toNat) := by
    rintro ⟨hx1, hx2⟩
    rw [← hx1, ← hx2] at hn1W
    exact hn1W h10
  have hne01n : ¬((0 : Nat) = n1.row.toNat ∧ (1 : Nat) = n1.col.toNat) := by
    rintro ⟨hx1, hx2⟩
    rw [← hx1, ← hx2] at hn1W
    exact hn1W h11
  have hC_w0 : setCell (setCell g.cells g.snake.pos.row.toNat g.snake.pos.col.toNat
        Cell.Body) n1.row.toNat n1.col.toNat Cell.Empty 0 0 = Cell.Wall := by
    rw [setCell_other _ _ _ _ _ _ hne00n, setCell_other _ _ _ _ _ _ hne00c]
    exact h10
  have hC_w1 : setCell (setCell g.cells g.snake.pos.row.toNat g.snake.pos.col.toNat
        Cell.Body) n1.row.toNat n1.col.toNat Cell.Empty 0 1 = Cell.Wall := by
    rw [setCell_other _ _ _ _ _ _ hne01n, setCell_other _ _ _ _ _ _ hne01c]
    exact h11
  rw [move_to_food rng fuel { g with snake := { g.snake with dir := d1 } } n1 d1 hmk]
  cases hf : findFoodCell
      (setCell (setCell g.cells g.snake.pos.row.toNat g.snake.pos.col.toNat Cell.Body)
        n1.row.toNat n1.col.toNat Cell.Empty)
      (rng g.total_ticks) 0 fuel with
  | none =>
    rw [new_food_none rng fuel
        { g with
          cells := setCell
            (setCell g.cells g.snake.pos.row.toNat g.snake.pos.col.toNat Cell.Body)
            n1.row.toNat n1.col.toNat Cell.Empty,
          snake := { g.snake with pos := n1, dir := d1, size := g.snake.size + 1 } }
        hf,
      update_snake_body_grow]
    exact Inv_grow_core g d1 n1 _ ⟨h1, h2, h3, h4, h5, h6, h7, h8, h9, h10, h11⟩
      hn1 hleg hbound hC_curr hC_live hC_body (Or.inl hC_head) hC_w0 hC_w1
  | some rc =>
    obtain ⟨fr, fc⟩ := rc
    obtain ⟨hfr1, hfr2, hfc1, hfc2, hfEmpty⟩ :=
      findFoodCell_spec _ (rng g.total_ticks) fuel 0 fr fc hf
    have hfne_curr : ¬(g.snake.pos.row.toNat = fr ∧ g.snake.pos.col.toNat = fc) := by
      rintro ⟨hx1, hx2⟩
      rw [← hx1, ← hx2] at hfEmpty
      rw [hC_curr] at hfEmpty
      exact Cell.noConfusion hfEmpty
    have hF_curr : setCell (setCell (setCell g.cells g.snake.pos.row.toNat
          g.snake.pos.col.toNat Cell.Body) n1.row.toNat n1.col.toNat Cell.Empty)
        fr fc Cell.Food g.snake.pos.row.toNat g.snake.pos.col.toNat = Cell.Body := by
      rw [setCell_other _ _ _ _ _ _ hfne_curr]
      exact hC_curr
    have hF_live : ∀ p ∈ live g.snake,
        setCell (setCell (setCell g.cells g.snake.pos.row.toNat g.snake.pos.col.toNat
          Cell.Body) n1.row.toNat n1.col.toNat Cell.Empty)
        fr fc Cell.Food p.row.toNat p.col.toNat = Cell.Body := by
      intro p hp
      have hpC := hC_live p hp
      have hpne_f : ¬(p.row.toNat = fr ∧ p.col.toNat = fc) := by
        rintro ⟨hx1, hx2⟩
        rw [← hx1, ← hx2] at hfEmpty
        rw [hpC] at hfEmpty
        exact Cell.noConfusion hfEmpty
      rw [setCell_other _ _ _ _ _ _ hpne_f]
      exact hpC
    have hF_body : ∀ r < HEIGHT, ∀ c < WIDTH,
        setCell (setCell (setCell g.cells g.snake.pos.row.toNat g.snake.pos.col.toNat
          Cell.Body) n1.row.toNat n1.col.toNat Cell.Empty)
        fr fc Cell.Food r c = Cell.Body →
        (r = g.snake.pos.row.toNat ∧ c = g.snake.pos.col.toNat) ∨
        g.cells r c = Cell.Body := by
      intro r hr c hc hb
      by_cases hx : r = fr ∧ c = fc
      · rw [hx.1, hx.2, setCell_same] at hb
        exact absurd hb (fun hq => Cell.noConfusion hq)
      · rw [setCell_other _ _ _ _ _ _ hx] at hb
        exact hC_body r hr c hc hb
    have hF_head : setCell (setCell (setCell g.cells g.snake.pos.row.toNat
          g.snake.pos.col.toNat Cell.Body) n1.row.toNat n1.col.toNat Cell.Empty)
        fr fc Cell.Food n1.row.toNat n1.col.toNat = Cell.Empty ∨
        setCell (setCell (setCell g.cells g.snake.pos.row.toNat
          g.snake.pos.col.toNat Cell.Body) n1.row.toNat n1.col.toNat Cell.Empty)
        fr fc Cell.Food n1.row.toNat n1.col.toNat = Cell.Food := by
      by_cases hx : n1.row.toNat = fr ∧ n1.col.toNat = fc
      · right
        rw [hx.1, hx.2, setCell_same]
      · left
        rw [setCell_other _ _ _ _ _ _ hx]
        exact hC_head
    have hne00f : ¬((0 : Nat) = fr ∧ (0 : Nat) = fc) := by
      rintro ⟨hx1, _⟩
      omega
    have hne01f : ¬((0 : Nat) = fr ∧ (1 : Nat) = fc) := by
      rintro ⟨hx1, _⟩
      omega
    have hF_w0 : setCell (setCell (setCell g.cells g.snake.pos.row.toNat
          g.snake.pos.col.toNat Cell.Body) n1.row.toNat n1.col.toNat Cell.Empty)
        fr fc Cell.Food 0 0 = Cell.Wall := by
      rw [setCell_other _ _ _ _ _ _ hne00f]
      exact hC_w0
    have hF_w1 : setCell (setCell (setCell g.cells g.snake.pos.row.toNat
          g.snake.pos.col.toNat Cell.Body) n1.row.toNat n1.col.toNat Cell.Empty)
        fr fc Cell.Food 0 1 = Cell.Wall := by
      rw [setCell_other _ _ _ _ _ _ hne01f]
      exact hC_w1
    rw [new_food_found rng fuel
        { g with
          cells := setCell
            (setCell g.cells g.snake.pos.row.toNat g.snake.pos.col.toNat Cell.Body)
            n1.row.toNat n1.col.toNat Cell.Empty,
          snake := { g.snake with pos := n1, dir := d1, size := g.snake.size + 1 } }
        fr fc hf,
      update_snake_body_grow]
    exact Inv_grow_core g d1 n1 _ ⟨h1, h2, h3, h4, h5, h6, h7, h8, h9, h10, h11⟩
      hn1 hleg hbound hF_curr hF_live hF_body hF_head hF_w0 hF_w1

/-- `resolve_move` preserves the strengthened invariant. -/
theorem Inv_resolve_move (rng : Nat → Nat → Nat) (fuel : Nat) (g : SnakeGame)
    (h : Inv g) : Inv (resolve_move rng fuel g) := by
  by_cases hleg : (g.snake.pos.neighbor (effDir g.last_key g.snake.dir)).is_legal = true
  · by_cases hobs : isObstacle (cellAt g (g.snake.pos.neighbor (effDir g.last_key g.snake.dir)))
    · rw [resolve_move_collides rng fuel g hleg hobs]
      exact h
    · by_cases hst : g.status = Status.Normal
      · rw [resolve_move_moves rng fuel g hleg hobs hst]
        cases hcell : cellAt g (g.snake.pos.neighbor (effDir g.last_key g.snake.dir)) with
        | Empty => exact Inv_move_empty rng fuel g _ _ rfl h hleg hcell
        | Food => exact Inv_move_food rng fuel g _ _ rfl h hleg hcell
        | Wall => exact absurd (Or.inr (Or.inr hcell)) hobs
        | Body => exact absurd (Or.inl hcell) hobs
        | Body2 => exact absurd (Or.inr (Or.inl hcell)) hobs
      · rw [resolve_move_blocked rng fuel g hleg hobs hst]
        exact h
  · rw [resolve_move_skips rng fuel g hleg]
    exact h

/-- A single-player `update` preserves the strengthened invariant. -/
theorem Inv_update_single (rng : Nat → Nat → Nat) (fuel : Nat) (g : SnakeGame)
    (htp : g.two_player = false) (h : Inv g) : Inv (update rng fuel g) := by
  rw [update_eq_one rng fuel g htp]
  exact Inv_resolve_move rng fuel g h

/-- C5 (amended): the invariant as stated is not inductive (see the
counterexample); strengthened with pairwise distinctness of the live
entries, the requirement that each live entry lies on a cell tagged with
the player's `Body` mark, and legality/head side conditions, it is
preserved by every single-player `update`, and it implies the claimed
correspondence: occupancy counted modulo the capacity equals the length,
and a cell is tagged `Body` exactly when it matches exactly one live
buffer entry. -/
theorem C5_buffer_invariant (rng : Nat → Nat → Nat) (fuel : Nat) (g : SnakeGame)
    (htp : g.two_player = false) (h : Inv g) :
    Inv (update rng fuel g) ∧
    (ARRAY_SIZE + g.snake.insert_index - g.snake.remove_index) % ARRAY_SIZE
        = g.snake.size ∧
    (∀ r < HEIGHT, ∀ c < WIDTH, (g.cells r c = Cell.Body ↔
        (live g.snake).count { col := (c : Int), row := (r : Int) } = 1)) := by
  obtain ⟨h1, h2, h3, h4, h5, h6, h7, h8, h9, h10, h11⟩ := h
  refine ⟨Inv_update_single rng fuel g htp
    ⟨h1, h2, h3, h4, h5, h6, h7, h8, h9, h10, h11⟩, ?_, ?_⟩
  · rw [h4]
    rw [AS_eq] at h2 h3 ⊢
    omega
  · intro r hr c hc
    constructor
    · intro hb
      exact List.count_eq_one_of_mem h5 (h7 r hr c hc hb)
    · intro hcount
      have hmem : ({ col := (c : Int), row := (r : Int) } : Position) ∈ live g.snake := by
        have hpos : 0 < (live g.snake).count
            ({ col := (c : Int), row := (r : Int) } : Position) := by omega
        exact List.count_pos_iff.mp hpos
      have hB := (h6 _ hmem).2
      rw [cellAt_mk] at hB
      exact hB

set_option maxRecDepth 1000000 in
/-- Witness for C5 at a concrete invariant-satisfying state. -/
theorem C5_buffer_invariant_witness :
    (gInv.two_player = false ∧ Inv gInv) ∧
    (Inv (update rng0 0 gInv) ∧
     (ARRAY_SIZE + gInv.snake.insert_index - gInv.snake.remove_index) % ARRAY_SIZE
        = gInv.snake.size ∧
     (∀ r < HEIGHT, ∀ c < WIDTH, (gInv.cells r c = Cell.Body ↔
        (live gInv.snake).count { col := (c : Int), row := (r : Int) } = 1))) :=
  ⟨⟨rfl, by decide⟩, C5_buffer_invariant rng0 0 gInv rfl (by decide)⟩

end SnakeSim
